import Mathlib

/-!
Verification development for the hahomematic cache subsystem and the
light entity command layer (`hahomematic/caches/dynamic.py`,
`hahomematic/platforms/custom/light.py`).

Shallow embedding conventions:
* `datetime` timestamps are modelled as whole seconds (`ℕ` for the
  ping/pong cache, `ℚ` for the data caches, where fractional gate windows
  such as `MAX_CACHE_AGE / 2` matter).
* Python sets of timestamps become `Finset ℕ`; Python dicts become either
  association lists (where `len` matters) or `String → Option _` maps.
* Methods that mutate `self` become functions returning the new state;
  methods that additionally fire events or log warnings also return the
  list of fired events and emitted warnings.
-/

/-- Python `timedelta.seconds` component of `datetime(now) - datetime(ts)`
for whole-second values with `ts ≤ now`: the elapsed seconds modulo one day
(86400); the day component is discarded. -/
def timedelta_seconds (now ts : ℕ) : ℕ := (now - ts) % 86400

/-- Kinds of interface events fired by `PingPongCache`
(`InterfaceEventType.PENDING_PONG` / `InterfaceEventType.UNKNOWN_PONG`). -/
inductive PongKind where
  | pendingPong
  | unknownPong
deriving DecidableEq, Repr

/-- State of `PingPongCache` (dynamic.py:190-209): ttl-bounded sets of
pending and unknown pong timestamps plus the two warn-once flags. -/
structure PingPongCache where
  allowed_delta : ℕ
  ttl : ℕ
  pending_pongs : Finset ℕ
  unknown_pongs : Finset ℕ
  pending_pong_logged : Bool
  unknown_pong_logged : Bool
deriving DecidableEq

/-- `PingPongCache.__init__`: empty sets, flags cleared (the constructor
asserts `ttl > 0`; theorems carry that hypothesis where relevant). -/
def mkPingPongCache (allowed_delta ttl : ℕ) : PingPongCache :=
  ⟨allowed_delta, ttl, ∅, ∅, false, false⟩

/-- `PingPongCache._cleanup_pending_pongs` (dynamic.py:294-306): drop every
pending timestamp whose `(now - ts).seconds` exceeds the ttl. -/
def PingPongCache.cleanup_pending_pongs (now : ℕ) (s : PingPongCache) : PingPongCache :=
  { s with pending_pongs := s.pending_pongs.filter fun ts => ¬ timedelta_seconds now ts > s.ttl }

/-- `PingPongCache._cleanup_unknown_pongs` (dynamic.py:308-320). -/
def PingPongCache.cleanup_unknown_pongs (now : ℕ) (s : PingPongCache) : PingPongCache :=
  { s with unknown_pongs := s.unknown_pongs.filter fun ts => ¬ timedelta_seconds now ts > s.ttl }

/-- `PingPongCache.high_pending_pongs` (dynamic.py:211-215): cleanup, then
`len(pending) > allowed_delta`.  The property's cleanup side effect on the
state is `cleanup_pending_pongs`; the returned value is this boolean. -/
def PingPongCache.high_pending_pongs (now : ℕ) (s : PingPongCache) : Bool :=
  decide ((s.cleanup_pending_pongs now).pending_pongs.card > s.allowed_delta)

/-- `PingPongCache.high_unknown_pongs` (dynamic.py:217-221). -/
def PingPongCache.high_unknown_pongs (now : ℕ) (s : PingPongCache) : Bool :=
  decide ((s.cleanup_unknown_pongs now).unknown_pongs.card > s.allowed_delta)

/-- `PingPongCache.low_pending_pongs` (dynamic.py:223-227): cleanup, then
`len(pending) < allowed_delta / 2` (Python real division; for integers
`len < d / 2 ↔ 2 * len < d`). -/
def PingPongCache.low_pending_pongs (now : ℕ) (s : PingPongCache) : Bool :=
  decide (2 * (s.cleanup_pending_pongs now).pending_pongs.card < s.allowed_delta)

/-- `PingPongCache.low_unknown_pongs` (dynamic.py:229-233). -/
def PingPongCache.low_unknown_pongs (now : ℕ) (s : PingPongCache) : Bool :=
  decide (2 * (s.cleanup_unknown_pongs now).unknown_pongs.card < s.allowed_delta)

/-- `PingPongCache.pending_pong_count` (dynamic.py:235-238): bare
`len(self._pending_pongs)` — note: no cleanup happens here. -/
def PingPongCache.pending_pong_count (s : PingPongCache) : ℕ := s.pending_pongs.card

/-- `PingPongCache.unknown_pong_count` (dynamic.py:240-243): bare
`len(self._unknown_pongs)` — note: no cleanup happens here. -/
def PingPongCache.unknown_pong_count (s : PingPongCache) : ℕ := s.unknown_pongs.card

/-- `PingPongCache.clear` (dynamic.py:245-250). -/
def PingPongCache.clear (s : PingPongCache) : PingPongCache :=
  { s with pending_pongs := ∅, unknown_pongs := ∅,
           pending_pong_logged := false, unknown_pong_logged := false }

/-- `PingPongCache._check_and_fire_pong_event` (dynamic.py:322-376),
sequenced exactly as the source: each `if X_pongs and event_type == K:`
line first evaluates the property `X_pongs`, whose cleanup side effect
happens whether or not the event type matches; the first two branches
return, the last two fall through.  Returns the new state, the list of
fired events `(kind, mismatch_count)`, and the list of warnings written
to the log. -/
def PingPongCache.check_and_fire_pong_event (now : ℕ) (event_type : PongKind)
    (pong_mismatch_count : ℕ) (s : PingPongCache) :
    PingPongCache × List (PongKind × ℕ) × List PongKind :=
  let s1 := s.cleanup_pending_pongs now
  if 2 * s1.pending_pongs.card < s1.allowed_delta ∧ event_type = PongKind.pendingPong then
    ({ s1 with pending_pong_logged := false }, [(PongKind.pendingPong, 0)], [])
  else
    let s2 := s1.cleanup_unknown_pongs now
    if 2 * s2.unknown_pongs.card < s2.allowed_delta ∧ event_type = PongKind.unknownPong then
      ({ s2 with unknown_pong_logged := false }, [], [])
    else
      let s3 := s2.cleanup_pending_pongs now
      if s3.pending_pongs.card > s3.allowed_delta ∧ event_type = PongKind.pendingPong then
        let warns := if s3.pending_pong_logged then [] else [PongKind.pendingPong]
        let s4 := { s3 with pending_pong_logged := true }
        let s5 := s4.cleanup_unknown_pongs now
        if s5.unknown_pongs.card > s5.allowed_delta ∧ event_type = PongKind.unknownPong then
          ({ s5 with unknown_pong_logged := true },
           [(PongKind.pendingPong, pong_mismatch_count)],
           warns ++ if s5.unknown_pong_logged then [] else [PongKind.unknownPong])
        else
          (s5, [(PongKind.pendingPong, pong_mismatch_count)], warns)
      else
        let s5 := s3.cleanup_unknown_pongs now
        if s5.unknown_pongs.card > s5.allowed_delta ∧ event_type = PongKind.unknownPong then
          ({ s5 with unknown_pong_logged := true }, [],
           if s5.unknown_pong_logged then [] else [PongKind.unknownPong])
        else
          (s5, [], [])

/-- `PingPongCache.handle_send_ping` (dynamic.py:252-264): insert the
timestamp into the pending set, then evaluate the `PENDING_PONG` event with
the post-insert count. -/
def PingPongCache.handle_send_ping (now ping_ts : ℕ) (s : PingPongCache) :
    PingPongCache × List (PongKind × ℕ) × List PongKind :=
  let s1 := { s with pending_pongs := insert ping_ts s.pending_pongs }
  PingPongCache.check_and_fire_pong_event now PongKind.pendingPong
    s1.pending_pong_count s1

/-- `PingPongCache.handle_received_pong` (dynamic.py:266-292): a matching
pong acknowledges (and re-evaluates `PENDING_PONG`); otherwise the
timestamp joins the unknown set and `UNKNOWN_PONG` is evaluated. -/
def PingPongCache.handle_received_pong (now pong_ts : ℕ) (s : PingPongCache) :
    PingPongCache × List (PongKind × ℕ) × List PongKind :=
  if pong_ts ∈ s.pending_pongs then
    let s1 := { s with pending_pongs := s.pending_pongs.erase pong_ts }
    PingPongCache.check_and_fire_pong_event now PongKind.pendingPong
      s1.pending_pong_count s1
  else
    let s1 := { s with unknown_pongs := insert pong_ts s.unknown_pongs }
    PingPongCache.check_and_fire_pong_event now PongKind.unknownPong
      s1.unknown_pong_count s1

/-- A keep-alive exchange step, for stating multi-step properties. -/
inductive PingPongOp where
  | sendPing (ts : ℕ)
  | receivedPong (ts : ℕ)
deriving DecidableEq, Repr

/-- Run a sequence of keep-alive exchanges at a common evaluation time,
concatenating fired events and warnings. -/
def runPingPong (now : ℕ) (ops : List PingPongOp) (s : PingPongCache) :
    PingPongCache × List (PongKind × ℕ) × List PongKind :=
  match ops with
  | [] => (s, [], [])
  | op :: rest =>
    let r := match op with
      | PingPongOp.sendPing ts => s.handle_send_ping now ts
      | PingPongOp.receivedPong ts => s.handle_received_pong now ts
    let r2 := runPingPong now rest r.1
    (r2.1, r.2.1 ++ r2.2.1, r.2.2 ++ r2.2.2)

/-- A timestamp is fresh (not expired) at evaluation time `now` for a given
ttl. -/
def freshTs (now ttl ts : ℕ) : Prop := timedelta_seconds now ts ≤ ttl

example : timedelta_seconds 11 0 = 11 := by decide
example : timedelta_seconds 86401 0 = 1 := by decide

/-! Helper lemmas about the cleanup sweeps. -/

lemma filter_fresh_eq_self (now ttl : ℕ) (t : Finset ℕ)
    (h : ∀ x ∈ t, freshTs now ttl x) :
    (t.filter fun ts => ¬ timedelta_seconds now ts > ttl) = t := by
  apply Finset.filter_true_of_mem
  intro x hx
  exact not_lt.mpr (h x hx)

lemma cleanup_pending_of_fresh {now : ℕ} {s : PingPongCache}
    (h : ∀ x ∈ s.pending_pongs, freshTs now s.ttl x) :
    s.cleanup_pending_pongs now = s := by
  unfold PingPongCache.cleanup_pending_pongs
  rw [filter_fresh_eq_self now s.ttl s.pending_pongs h]

lemma cleanup_unknown_of_fresh {now : ℕ} {s : PingPongCache}
    (h : ∀ x ∈ s.unknown_pongs, freshTs now s.ttl x) :
    s.cleanup_unknown_pongs now = s := by
  unfold PingPongCache.cleanup_unknown_pongs
  rw [filter_fresh_eq_self now s.ttl s.unknown_pongs h]

@[simp] lemma cleanup_pending_allowed_delta (now : ℕ) (s : PingPongCache) :
    (s.cleanup_pending_pongs now).allowed_delta = s.allowed_delta := rfl

@[simp] lemma cleanup_pending_ttl (now : ℕ) (s : PingPongCache) :
    (s.cleanup_pending_pongs now).ttl = s.ttl := rfl

@[simp] lemma cleanup_pending_unknown_pongs (now : ℕ) (s : PingPongCache) :
    (s.cleanup_pending_pongs now).unknown_pongs = s.unknown_pongs := rfl

@[simp] lemma cleanup_pending_pending_logged (now : ℕ) (s : PingPongCache) :
    (s.cleanup_pending_pongs now).pending_pong_logged = s.pending_pong_logged := rfl

@[simp] lemma cleanup_pending_unknown_logged (now : ℕ) (s : PingPongCache) :
    (s.cleanup_pending_pongs now).unknown_pong_logged = s.unknown_pong_logged := rfl

@[simp] lemma cleanup_pending_pending_pongs (now : ℕ) (s : PingPongCache) :
    (s.cleanup_pending_pongs now).pending_pongs =
      s.pending_pongs.filter (fun ts => ¬ timedelta_seconds now ts > s.ttl) := rfl

@[simp] lemma cleanup_unknown_allowed_delta (now : ℕ) (s : PingPongCache) :
    (s.cleanup_unknown_pongs now).allowed_delta = s.allowed_delta := rfl

@[simp] lemma cleanup_unknown_ttl (now : ℕ) (s : PingPongCache) :
    (s.cleanup_unknown_pongs now).ttl = s.ttl := rfl

@[simp] lemma cleanup_unknown_pending_pongs (now : ℕ) (s : PingPongCache) :
    (s.cleanup_unknown_pongs now).pending_pongs = s.pending_pongs := rfl

@[simp] lemma cleanup_unknown_pending_logged (now : ℕ) (s : PingPongCache) :
    (s.cleanup_unknown_pongs now).pending_pong_logged = s.pending_pong_logged := rfl

@[simp] lemma cleanup_unknown_unknown_logged (now : ℕ) (s : PingPongCache) :
    (s.cleanup_unknown_pongs now).unknown_pong_logged = s.unknown_pong_logged := rfl

@[simp] lemma cleanup_unknown_unknown_pongs (now : ℕ) (s : PingPongCache) :
    (s.cleanup_unknown_pongs now).unknown_pongs =
      s.unknown_pongs.filter (fun ts => ¬ timedelta_seconds now ts > s.ttl) := rfl

/-- `_check_and_fire_pong_event` for a `PENDING_PONG` evaluation when
nothing in the cache is expired: the cleanups are no-ops, so the three
branches reduce to comparisons on the live pending count. -/
lemma check_and_fire_pending_fresh (now cnt : ℕ) (s : PingPongCache)
    (hp : ∀ x ∈ s.pending_pongs, freshTs now s.ttl x)
    (hu : ∀ x ∈ s.unknown_pongs, freshTs now s.ttl x) :
    s.check_and_fire_pong_event now PongKind.pendingPong cnt =
      (if 2 * s.pending_pongs.card < s.allowed_delta then
        ({ s with pending_pong_logged := false }, [(PongKind.pendingPong, 0)], [])
      else if s.pending_pongs.card > s.allowed_delta then
        ({ s with pending_pong_logged := true }, [(PongKind.pendingPong, cnt)],
         if s.pending_pong_logged then [] else [PongKind.pendingPong])
      else
        (s, [], [])) := by
  have e1 : s.cleanup_pending_pongs now = s := cleanup_pending_of_fresh hp
  have e2 : s.cleanup_unknown_pongs now = s := cleanup_unknown_of_fresh hu
  have e3 : PingPongCache.cleanup_unknown_pongs now { s with pending_pong_logged := true } =
      { s with pending_pong_logged := true } := cleanup_unknown_of_fresh hu
  unfold PingPongCache.check_and_fire_pong_event
  simp only [e1, e2, e3]
  split_ifs <;> simp_all

/-- `_check_and_fire_pong_event` for an `UNKNOWN_PONG` evaluation when
nothing in the cache is expired.  Note that no event is fired on the
unknown side, only the warn-once log on the high branch. -/
lemma check_and_fire_unknown_fresh (now cnt : ℕ) (s : PingPongCache)
    (hp : ∀ x ∈ s.pending_pongs, freshTs now s.ttl x)
    (hu : ∀ x ∈ s.unknown_pongs, freshTs now s.ttl x) :
    s.check_and_fire_pong_event now PongKind.unknownPong cnt =
      (if 2 * s.unknown_pongs.card < s.allowed_delta then
        ({ s with unknown_pong_logged := false }, [], [])
      else if s.unknown_pongs.card > s.allowed_delta then
        ({ s with unknown_pong_logged := true }, [],
         if s.unknown_pong_logged then [] else [PongKind.unknownPong])
      else
        (s, [], [])) := by
  have e1 : s.cleanup_pending_pongs now = s := cleanup_pending_of_fresh hp
  have e2 : s.cleanup_unknown_pongs now = s := cleanup_unknown_of_fresh hu
  have e3 : PingPongCache.cleanup_unknown_pongs now { s with pending_pong_logged := true } =
      { s with pending_pong_logged := true } := cleanup_unknown_of_fresh hu
  unfold PingPongCache.check_and_fire_pong_event
  simp only [e1, e2, e3]
  split_ifs <;> simp_all

/-- `handle_send_ping`, evaluated when nothing is expired: the timestamp
joins the pending set and exactly one of the three event branches runs,
keyed on the new pending count. -/
lemma handle_send_ping_fresh (now ts : ℕ) (s : PingPongCache)
    (hp : ∀ x ∈ s.pending_pongs, freshTs now s.ttl x)
    (hu : ∀ x ∈ s.unknown_pongs, freshTs now s.ttl x)
    (hts : freshTs now s.ttl ts) :
    s.handle_send_ping now ts =
      (if 2 * (insert ts s.pending_pongs).card < s.allowed_delta then
        ({ s with pending_pongs := insert ts s.pending_pongs, pending_pong_logged := false },
         [(PongKind.pendingPong, 0)], [])
      else if (insert ts s.pending_pongs).card > s.allowed_delta then
        ({ s with pending_pongs := insert ts s.pending_pongs, pending_pong_logged := true },
         [(PongKind.pendingPong, (insert ts s.pending_pongs).card)],
         if s.pending_pong_logged then [] else [PongKind.pendingPong])
      else
        ({ s with pending_pongs := insert ts s.pending_pongs }, [], [])) := by
  have hp' : ∀ x ∈ (insert ts s.pending_pongs : Finset ℕ), freshTs now s.ttl x := by
    intro x hx
    rcases Finset.mem_insert.mp hx with h | h
    · exact h ▸ hts
    · exact hp x h
  unfold PingPongCache.handle_send_ping
  rw [check_and_fire_pending_fresh now _ { s with pending_pongs := insert ts s.pending_pongs }
    hp' hu]
  rfl

/-- `handle_received_pong` on a matching (pending) timestamp, evaluated
when nothing is expired. -/
lemma handle_received_pong_ack_fresh (now ts : ℕ) (s : PingPongCache)
    (hmem : ts ∈ s.pending_pongs)
    (hp : ∀ x ∈ s.pending_pongs, freshTs now s.ttl x)
    (hu : ∀ x ∈ s.unknown_pongs, freshTs now s.ttl x) :
    s.handle_received_pong now ts =
      (if 2 * (s.pending_pongs.erase ts).card < s.allowed_delta then
        ({ s with pending_pongs := s.pending_pongs.erase ts, pending_pong_logged := false },
         [(PongKind.pendingPong, 0)], [])
      else if (s.pending_pongs.erase ts).card > s.allowed_delta then
        ({ s with pending_pongs := s.pending_pongs.erase ts, pending_pong_logged := true },
         [(PongKind.pendingPong, (s.pending_pongs.erase ts).card)],
         if s.pending_pong_logged then [] else [PongKind.pendingPong])
      else
        ({ s with pending_pongs := s.pending_pongs.erase ts }, [], [])) := by
  have hp' : ∀ x ∈ s.pending_pongs.erase ts, freshTs now s.ttl x := fun x hx =>
    hp x (Finset.mem_of_mem_erase hx)
  unfold PingPongCache.handle_received_pong
  rw [if_pos hmem,
    check_and_fire_pending_fresh now _ { s with pending_pongs := s.pending_pongs.erase ts }
      hp' hu]
  rfl

/-- `handle_received_pong` on an unmatched timestamp, evaluated when
nothing is expired: the timestamp joins the unknown set; no event is ever
fired on the unknown side (only the warn-once log on the high branch). -/
lemma handle_received_pong_unknown_fresh (now ts : ℕ) (s : PingPongCache)
    (hmem : ts ∉ s.pending_pongs)
    (hp : ∀ x ∈ s.pending_pongs, freshTs now s.ttl x)
    (hu : ∀ x ∈ s.unknown_pongs, freshTs now s.ttl x)
    (hts : freshTs now s.ttl ts) :
    s.handle_received_pong now ts =
      (if 2 * (insert ts s.unknown_pongs).card < s.allowed_delta then
        ({ s with unknown_pongs := insert ts s.unknown_pongs, unknown_pong_logged := false },
         [], [])
      else if (insert ts s.unknown_pongs).card > s.allowed_delta then
        ({ s with unknown_pongs := insert ts s.unknown_pongs, unknown_pong_logged := true },
         [], if s.unknown_pong_logged then [] else [PongKind.unknownPong])
      else
        ({ s with unknown_pongs := insert ts s.unknown_pongs }, [], [])) := by
  have hu' : ∀ x ∈ (insert ts s.unknown_pongs : Finset ℕ), freshTs now s.ttl x := by
    intro x hx
    rcases Finset.mem_insert.mp hx with h | h
    · exact h ▸ hts
    · exact hu x h
  unfold PingPongCache.handle_received_pong
  rw [if_neg hmem,
    check_and_fire_unknown_fresh now _ { s with unknown_pongs := insert ts s.unknown_pongs }
      hp hu']

/-! Multi-step run lemmas. -/

lemma runPingPong_nil (now : ℕ) (s : PingPongCache) :
    runPingPong now [] s = (s, [], []) := rfl

lemma runPingPong_cons (now : ℕ) (op : PingPongOp) (ops : List PingPongOp)
    (s : PingPongCache) :
    runPingPong now (op :: ops) s =
      (let r := match op with
        | PingPongOp.sendPing ts => s.handle_send_ping now ts
        | PingPongOp.receivedPong ts => s.handle_received_pong now ts
       let r2 := runPingPong now ops r.1
       (r2.1, r.2.1 ++ r2.2.1, r.2.2 ++ r2.2.2)) := rfl

lemma runPingPong_append_state (now : ℕ) (a b : List PingPongOp) :
    ∀ s : PingPongCache,
      (runPingPong now (a ++ b) s).1 = (runPingPong now b (runPingPong now a s).1).1 := by
  induction a with
  | nil => intro s; rfl
  | cons op rest ih =>
    intro s
    rw [List.cons_append, runPingPong_cons, runPingPong_cons]
    exact ih _

/-- Field bookkeeping for a fresh `handle_send_ping` step: the pending set
gains the timestamp, everything else but the flags is untouched. -/
lemma handle_send_ping_sets (now ts : ℕ) (s : PingPongCache)
    (hp : ∀ x ∈ s.pending_pongs, freshTs now s.ttl x)
    (hu : ∀ x ∈ s.unknown_pongs, freshTs now s.ttl x)
    (hts : freshTs now s.ttl ts) :
    (s.handle_send_ping now ts).1.pending_pongs = insert ts s.pending_pongs ∧
    (s.handle_send_ping now ts).1.unknown_pongs = s.unknown_pongs ∧
    (s.handle_send_ping now ts).1.ttl = s.ttl ∧
    (s.handle_send_ping now ts).1.allowed_delta = s.allowed_delta ∧
    (s.handle_send_ping now ts).1.unknown_pong_logged = s.unknown_pong_logged := by
  rw [handle_send_ping_fresh now ts s hp hu hts]
  split_ifs <;> exact ⟨rfl, rfl, rfl, rfl, rfl⟩

/-- Field bookkeeping for a fresh acknowledging `handle_received_pong`
step: the pending set loses the timestamp, everything else but the flags is
untouched. -/
lemma handle_received_pong_ack_sets (now ts : ℕ) (s : PingPongCache)
    (hmem : ts ∈ s.pending_pongs)
    (hp : ∀ x ∈ s.pending_pongs, freshTs now s.ttl x)
    (hu : ∀ x ∈ s.unknown_pongs, freshTs now s.ttl x) :
    (s.handle_received_pong now ts).1.pending_pongs = s.pending_pongs.erase ts ∧
    (s.handle_received_pong now ts).1.unknown_pongs = s.unknown_pongs ∧
    (s.handle_received_pong now ts).1.ttl = s.ttl ∧
    (s.handle_received_pong now ts).1.allowed_delta = s.allowed_delta ∧
    (s.handle_received_pong now ts).1.unknown_pong_logged = s.unknown_pong_logged := by
  rw [handle_received_pong_ack_fresh now ts s hmem hp hu]
  split_ifs <;> exact ⟨rfl, rfl, rfl, rfl, rfl⟩

/-- Sending a nodup list of fresh pings at a common time: the pending set
ends as the union, the unknown side is untouched. -/
lemma runSends_sets (now : ℕ) :
    ∀ (L : List ℕ) (s : PingPongCache),
      (∀ t ∈ L, freshTs now s.ttl t) →
      (∀ x ∈ s.pending_pongs, freshTs now s.ttl x) →
      (∀ x ∈ s.unknown_pongs, freshTs now s.ttl x) →
      (runPingPong now (L.map PingPongOp.sendPing) s).1.pending_pongs =
          s.pending_pongs ∪ L.toFinset ∧
      (runPingPong now (L.map PingPongOp.sendPing) s).1.unknown_pongs = s.unknown_pongs ∧
      (runPingPong now (L.map PingPongOp.sendPing) s).1.ttl = s.ttl ∧
      (runPingPong now (L.map PingPongOp.sendPing) s).1.allowed_delta = s.allowed_delta := by
  intro L
  induction L with
  | nil =>
    intro s _ _ _
    exact ⟨by rw [List.map_nil, runPingPong_nil]; simp, rfl, rfl, rfl⟩
  | cons t rest ih =>
    intro s hL hp hu
    have hts : freshTs now s.ttl t := hL t (by simp)
    obtain ⟨e1, e2, e3, e4, _⟩ := handle_send_ping_sets now t s hp hu hts
    rw [List.map_cons, runPingPong_cons]
    have hp' : ∀ x ∈ (s.handle_send_ping now t).1.pending_pongs,
        freshTs now (s.handle_send_ping now t).1.ttl x := by
      rw [e1, e3]
      intro x hx
      rcases Finset.mem_insert.mp hx with h | h
      · exact h ▸ hts
      · exact hp x h
    have hu' : ∀ x ∈ (s.handle_send_ping now t).1.unknown_pongs,
        freshTs now (s.handle_send_ping now t).1.ttl x := by
      rw [e2, e3]
      exact hu
    have hL' : ∀ x ∈ rest, freshTs now (s.handle_send_ping now t).1.ttl x := by
      rw [e3]
      intro x hx
      exact hL x (by simp [hx])
    obtain ⟨f1, f2, f3, f4⟩ := ih (s.handle_send_ping now t).1 hL' hp' hu'
    refine ⟨?_, ?_, ?_, ?_⟩
    · rw [f1, e1]
      simp only [List.toFinset_cons]
      rw [Finset.union_insert, Finset.insert_union]
    · rw [f2, e2]
    · rw [f3, e3]
    · rw [f4, e4]

/-- Acknowledging a nodup list of pending fresh pongs at a common time: the
pending set ends as the set difference, the unknown side is untouched. -/
lemma runAcks_sets (now : ℕ) :
    ∀ (L : List ℕ) (s : PingPongCache),
      L.Nodup →
      (∀ t ∈ L, t ∈ s.pending_pongs) →
      (∀ x ∈ s.pending_pongs, freshTs now s.ttl x) →
      (∀ x ∈ s.unknown_pongs, freshTs now s.ttl x) →
      (runPingPong now (L.map PingPongOp.receivedPong) s).1.pending_pongs =
          s.pending_pongs \ L.toFinset ∧
      (runPingPong now (L.map PingPongOp.receivedPong) s).1.unknown_pongs =
          s.unknown_pongs ∧
      (runPingPong now (L.map PingPongOp.receivedPong) s).1.ttl = s.ttl ∧
      (runPingPong now (L.map PingPongOp.receivedPong) s).1.allowed_delta =
          s.allowed_delta := by
  intro L
  induction L with
  | nil =>
    intro s _ _ _ _
    exact ⟨by rw [List.map_nil, runPingPong_nil]; simp, rfl, rfl, rfl⟩
  | cons t rest ih =>
    intro s hnd hmem hp hu
    have hmt : t ∈ s.pending_pongs := hmem t (by simp)
    obtain ⟨e1, e2, e3, e4, _⟩ := handle_received_pong_ack_sets now t s hmt hp hu
    rw [List.map_cons, runPingPong_cons]
    have hp' : ∀ x ∈ (s.handle_received_pong now t).1.pending_pongs,
        freshTs now (s.handle_received_pong now t).1.ttl x := by
      rw [e1, e3]
      intro x hx
      exact hp x (Finset.mem_of_mem_erase hx)
    have hu' : ∀ x ∈ (s.handle_received_pong now t).1.unknown_pongs,
        freshTs now (s.handle_received_pong now t).1.ttl x := by
      rw [e2, e3]
      exact hu
    have hmem' : ∀ x ∈ rest, x ∈ (s.handle_received_pong now t).1.pending_pongs := by
      rw [e1]
      intro x hx
      refine Finset.mem_erase.mpr ⟨?_, hmem x (by simp [hx])⟩
      intro hxt
      exact (List.nodup_cons.mp hnd).1 (hxt ▸ hx)
    obtain ⟨f1, f2, f3, f4⟩ := ih (s.handle_received_pong now t).1
      (List.nodup_cons.mp hnd).2 hmem' hp' hu'
    refine ⟨?_, ?_, ?_, ?_⟩
    · rw [f1, e1]
      ext x
      simp only [Finset.mem_sdiff, Finset.mem_erase, List.toFinset_cons, Finset.mem_insert,
        List.mem_toFinset]
      tauto
    · rw [f2, e2]
    · rw [f3, e3]
    · rw [f4, e4]

/-- Sending a nodup list of fresh pings, from a state whose `pending` count
can cross the `allowed_delta` threshold at most once (cap hypothesis) and
whose warn-flag agrees with the count: afterwards the warn-flag is set iff
the final count is high, no warning is logged if the threshold is never
exceeded, and exactly one warning is logged if the run crosses it. -/
lemma runSends_logged_warns (now : ℕ) :
    ∀ (L : List ℕ) (s : PingPongCache),
      (∀ t ∈ L, freshTs now s.ttl t) →
      (∀ x ∈ s.pending_pongs, freshTs now s.ttl x) →
      (∀ x ∈ s.unknown_pongs, freshTs now s.ttl x) →
      L.Nodup →
      (∀ t ∈ L, t ∉ s.pending_pongs) →
      s.pending_pongs.card + L.length ≤ s.allowed_delta + 1 →
      s.pending_pong_logged = decide (s.pending_pongs.card > s.allowed_delta) →
      ((runPingPong now (L.map PingPongOp.sendPing) s).1.pending_pong_logged =
        decide (s.pending_pongs.card + L.length > s.allowed_delta)) ∧
      (s.pending_pongs.card + L.length ≤ s.allowed_delta →
        (runPingPong now (L.map PingPongOp.sendPing) s).2.2 = []) ∧
      (s.pending_pongs.card + L.length > s.allowed_delta →
        s.pending_pongs.card ≤ s.allowed_delta →
        (runPingPong now (L.map PingPongOp.sendPing) s).2.2 = [PongKind.pendingPong]) := by
  intro L
  induction L with
  | nil =>
    intro s _ _ _ _ _ _ hlog
    rw [List.map_nil]
    refine ⟨by simpa using hlog, fun _ => rfl, fun hgt hle => ?_⟩
    exfalso
    simp only [List.length_nil, Nat.add_zero] at hgt
    omega
  | cons t rest ih =>
    intro s hL hp hu hnd hdis hcap hlog
    have hts : freshTs now s.ttl t := hL t (by simp)
    have hnotmem : t ∉ s.pending_pongs := hdis t (by simp)
    have hc : (insert t s.pending_pongs).card = s.pending_pongs.card + 1 :=
      Finset.card_insert_of_not_mem hnotmem
    rw [List.map_cons, runPingPong_cons]
    dsimp only
    rw [handle_send_ping_fresh now t s hp hu hts]
    have hp' : ∀ x ∈ (insert t s.pending_pongs : Finset ℕ), freshTs now s.ttl x := by
      intro x hx
      rcases Finset.mem_insert.mp hx with h | h
      · exact h ▸ hts
      · exact hp x h
    have hL' : ∀ x ∈ rest, freshTs now s.ttl x := fun x hx => hL x (by simp [hx])
    have hdis' : ∀ x ∈ rest, x ∉ (insert t s.pending_pongs : Finset ℕ) := by
      intro x hx
      rw [Finset.mem_insert]
      push_neg
      exact ⟨fun hxt => (List.nodup_cons.mp hnd).1 (hxt ▸ hx), hdis x (by simp [hx])⟩
    split_ifs with h1 h2 h3
    · -- low branch: recovery event, flag cleared, no warning
      have hlog' : (false : Bool) = decide ((insert t s.pending_pongs).card > s.allowed_delta) := by
        rw [hc]
        symm
        rw [decide_eq_false_iff_not]
        omega
      obtain ⟨g1, g2, g3⟩ := ih
        { s with pending_pongs := insert t s.pending_pongs, pending_pong_logged := false }
        hL' hp' hu (List.nodup_cons.mp hnd).2 hdis'
        (by dsimp; rw [hc]; simp only [List.length_cons] at hcap; omega) hlog'
      dsimp at g1 g2 g3 ⊢
      rw [hc] at g1 g2 g3
      refine ⟨?_, fun hle => ?_, fun hgt hle => ?_⟩
      · rw [g1]
        have e : s.pending_pongs.card + 1 + rest.length =
            s.pending_pongs.card + (rest.length + 1) := by omega
        rw [e]
      · exact g2 (by omega)
      · exact g3 (by omega) (by omega)
    · -- high branch with the warn-flag already set: impossible here, since
      -- the cap means the pre-insert count was not yet above the threshold
      exfalso
      rw [hlog] at h3
      have hgt := of_decide_eq_true h3
      simp only [List.length_cons] at hcap
      omega
    · -- high branch: this send crosses the threshold; the cap forces it to
      -- be the last one, and the flag was still clear, so one warning
      have hrest : rest = [] := by
        simp only [List.length_cons] at hcap
        rw [← List.length_eq_zero]
        rw [hc] at h2
        omega
      subst hrest
      dsimp [runPingPong]
      refine ⟨?_, fun hle => ?_, fun hgt hle => ?_⟩
      · symm
        rw [decide_eq_true_iff]
        try simp only [List.length_cons, List.length_nil]
        rw [hc] at h2
        omega
      · exfalso
        try simp only [List.length_cons, List.length_nil] at hle
        rw [hc] at h2
        omega
      · rfl
    · -- middle band: nothing fired, flag unchanged
      have hlog' : s.pending_pong_logged =
          decide ((insert t s.pending_pongs).card > s.allowed_delta) := by
        rw [hlog, hc]
        have e1 : ¬ s.pending_pongs.card > s.allowed_delta := by omega
        have e2 : ¬ s.pending_pongs.card + 1 > s.allowed_delta := by omega
        simp [e1, e2]
      obtain ⟨g1, g2, g3⟩ := ih
        { s with pending_pongs := insert t s.pending_pongs }
        hL' hp' hu (List.nodup_cons.mp hnd).2 hdis'
        (by dsimp; rw [hc]; simp only [List.length_cons] at hcap; omega) hlog'
      dsimp at g1 g2 g3 ⊢
      rw [hc] at g1 g2 g3
      refine ⟨?_, fun hle => ?_, fun hgt hle => ?_⟩
      · rw [g1]
        have e : s.pending_pongs.card + 1 + rest.length =
            s.pending_pongs.card + (rest.length + 1) := by omega
        rw [e]
      · exact g2 (by omega)
      · exact g3 (by omega) (by omega)

/-- Acknowledging pending pongs down to strictly below half the threshold:
the final acknowledgement runs the low branch, which fires the zero-count
recovery event and clears the warn-once flag. -/
lemma runAcks_low_tail (now : ℕ) :
    ∀ (L : List ℕ) (s : PingPongCache),
      L ≠ [] → L.Nodup →
      (∀ t ∈ L, t ∈ s.pending_pongs) →
      (∀ x ∈ s.pending_pongs, freshTs now s.ttl x) →
      (∀ x ∈ s.unknown_pongs, freshTs now s.ttl x) →
      2 * (s.pending_pongs.card - L.length) < s.allowed_delta →
      (runPingPong now (L.map PingPongOp.receivedPong) s).1.pending_pong_logged = false ∧
      (PongKind.pendingPong, 0) ∈ (runPingPong now (L.map PingPongOp.receivedPong) s).2.1 := by
  intro L
  induction L with
  | nil => intro s h; exact absurd rfl h
  | cons t rest ih =>
    intro s _ hnd hmem hp hu hlow
    have hmt : t ∈ s.pending_pongs := hmem t (by simp)
    have hc : (s.pending_pongs.erase t).card = s.pending_pongs.card - 1 :=
      Finset.card_erase_of_mem hmt
    have hp' : ∀ x ∈ s.pending_pongs.erase t, freshTs now s.ttl x := fun x hx =>
      hp x (Finset.mem_of_mem_erase hx)
    cases rest with
    | nil =>
      rw [List.map_cons, List.map_nil, runPingPong_cons]
      dsimp only
      rw [handle_received_pong_ack_fresh now t s hmt hp hu]
      have hcond : 2 * (s.pending_pongs.erase t).card < s.allowed_delta := by
        rw [hc]
        simp only [List.length_cons, List.length_nil] at hlow
        have hcard : 1 ≤ s.pending_pongs.card := Finset.card_pos.mpr ⟨t, hmt⟩
        omega
      rw [if_pos hcond]
      dsimp [runPingPong]
      exact ⟨rfl, by simp⟩
    | cons t2 rest2 =>
      have hmem' : ∀ x ∈ t2 :: rest2, x ∈ s.pending_pongs.erase t := by
        intro x hx
        refine Finset.mem_erase.mpr ⟨?_, hmem x (by simp [hx])⟩
        intro hxt
        exact (List.nodup_cons.mp hnd).1 (hxt ▸ hx)
      have hcard : 1 ≤ s.pending_pongs.card := Finset.card_pos.mpr ⟨t, hmt⟩
      have hlow' : 2 * ((s.pending_pongs.erase t).card - (t2 :: rest2).length) <
          s.allowed_delta := by
        rw [hc]
        simp only [List.length_cons] at hlow ⊢
        omega
      rw [List.map_cons, runPingPong_cons]
      dsimp only
      rw [handle_received_pong_ack_fresh now t s hmt hp hu]
      split_ifs with h1 h2 h3
      · obtain ⟨g1, g2⟩ := ih
          { s with pending_pongs := s.pending_pongs.erase t, pending_pong_logged := false }
          (by simp) (List.nodup_cons.mp hnd).2 hmem' hp' hu hlow'
        simp only [List.map_cons] at g1 g2
        exact ⟨g1, List.mem_cons_of_mem _ g2⟩
      · obtain ⟨g1, g2⟩ := ih
          { s with pending_pongs := s.pending_pongs.erase t, pending_pong_logged := true }
          (by simp) (List.nodup_cons.mp hnd).2 hmem' hp' hu hlow'
        simp only [List.map_cons] at g1 g2
        exact ⟨g1, List.mem_cons_of_mem _ g2⟩
      · obtain ⟨g1, g2⟩ := ih
          { s with pending_pongs := s.pending_pongs.erase t, pending_pong_logged := true }
          (by simp) (List.nodup_cons.mp hnd).2 hmem' hp' hu hlow'
        simp only [List.map_cons] at g1 g2
        exact ⟨g1, List.mem_cons_of_mem _ g2⟩
      · obtain ⟨g1, g2⟩ := ih
          { s with pending_pongs := s.pending_pongs.erase t }
          (by simp) (List.nodup_cons.mp hnd).2 hmem' hp' hu hlow'
        simp only [List.map_cons] at g1 g2
        exact ⟨g1, g2⟩

/-! Claim theorems for the PingPongCache. -/

lemma filter_stale_erase (now ttl ts : ℕ) (t : Finset ℕ)
    (h : timedelta_seconds now ts > ttl) :
    ((t.erase ts).filter fun x => ¬ timedelta_seconds now x > ttl) =
      t.filter fun x => ¬ timedelta_seconds now x > ttl := by
  ext x
  simp only [Finset.mem_filter, Finset.mem_erase]
  constructor
  · rintro ⟨⟨_, hx⟩, hfresh⟩
    exact ⟨hx, hfresh⟩
  · rintro ⟨hx, hfresh⟩
    refine ⟨⟨?_, hx⟩, hfresh⟩
    intro hxt
    exact hfresh (hxt ▸ h)

/-- C1 (amended): a timestamp whose `timedelta.seconds` age exceeds the ttl
is dropped by the expiry sweep, so it is absent from (has no effect on) the
result of the four sweeping accessors `high_pending_pongs`,
`low_pending_pongs`, `high_unknown_pongs`, `low_unknown_pongs`; the
condition is `(now - ts).seconds > ttl`, which for `now - ts` beyond one
day wraps around (modulo 86400), and the bare count accessors
`pending_pong_count` / `unknown_pong_count` perform no sweep at all, so
the original unconditional absence claim fails for them. -/
theorem C1_ttl_amended (s : PingPongCache) (ts now : ℕ)
    (h : timedelta_seconds now ts > s.ttl) :
    ts ∉ (s.cleanup_pending_pongs now).pending_pongs ∧
    ts ∉ (s.cleanup_unknown_pongs now).unknown_pongs ∧
    s.high_pending_pongs now =
      PingPongCache.high_pending_pongs now
        { s with pending_pongs := s.pending_pongs.erase ts } ∧
    s.low_pending_pongs now =
      PingPongCache.low_pending_pongs now
        { s with pending_pongs := s.pending_pongs.erase ts } ∧
    s.high_unknown_pongs now =
      PingPongCache.high_unknown_pongs now
        { s with unknown_pongs := s.unknown_pongs.erase ts } ∧
    s.low_unknown_pongs now =
      PingPongCache.low_unknown_pongs now
        { s with unknown_pongs := s.unknown_pongs.erase ts } := by
  refine ⟨?_, ?_, ?_, ?_, ?_, ?_⟩
  · simp only [cleanup_pending_pending_pongs, Finset.mem_filter]
    rintro ⟨-, hfresh⟩
    exact hfresh h
  · simp only [cleanup_unknown_unknown_pongs, Finset.mem_filter]
    rintro ⟨-, hfresh⟩
    exact hfresh h
  · unfold PingPongCache.high_pending_pongs
    simp only [cleanup_pending_pending_pongs, decide_eq_decide]
    rw [filter_stale_erase now s.ttl ts s.pending_pongs h]
  · unfold PingPongCache.low_pending_pongs
    simp only [cleanup_pending_pending_pongs, decide_eq_decide]
    rw [filter_stale_erase now s.ttl ts s.pending_pongs h]
  · unfold PingPongCache.high_unknown_pongs
    simp only [cleanup_unknown_unknown_pongs, decide_eq_decide]
    rw [filter_stale_erase now s.ttl ts s.unknown_pongs h]
  · unfold PingPongCache.low_unknown_pongs
    simp only [cleanup_unknown_unknown_pongs, decide_eq_decide]
    rw [filter_stale_erase now s.ttl ts s.unknown_pongs h]

/-- C1 witness: concrete instance of `C1_ttl_amended` at a cache holding
the single timestamp 0 in both sets, ttl 1, evaluated at time 3. -/
theorem C1_ttl_amended_witness :
    timedelta_seconds 3 0 > (⟨0, 1, {0}, {0}, false, false⟩ : PingPongCache).ttl ∧
    (0 ∉ (PingPongCache.cleanup_pending_pongs 3
        (⟨0, 1, {0}, {0}, false, false⟩ : PingPongCache)).pending_pongs ∧
     0 ∉ (PingPongCache.cleanup_unknown_pongs 3
        (⟨0, 1, {0}, {0}, false, false⟩ : PingPongCache)).unknown_pongs ∧
     PingPongCache.high_pending_pongs 3 (⟨0, 1, {0}, {0}, false, false⟩ : PingPongCache) =
       PingPongCache.high_pending_pongs 3
         { (⟨0, 1, {0}, {0}, false, false⟩ : PingPongCache) with
             pending_pongs := ({0} : Finset ℕ).erase 0 } ∧
     PingPongCache.low_pending_pongs 3 (⟨0, 1, {0}, {0}, false, false⟩ : PingPongCache) =
       PingPongCache.low_pending_pongs 3
         { (⟨0, 1, {0}, {0}, false, false⟩ : PingPongCache) with
             pending_pongs := ({0} : Finset ℕ).erase 0 } ∧
     PingPongCache.high_unknown_pongs 3 (⟨0, 1, {0}, {0}, false, false⟩ : PingPongCache) =
       PingPongCache.high_unknown_pongs 3
         { (⟨0, 1, {0}, {0}, false, false⟩ : PingPongCache) with
             unknown_pongs := ({0} : Finset ℕ).erase 0 } ∧
     PingPongCache.low_unknown_pongs 3 (⟨0, 1, {0}, {0}, false, false⟩ : PingPongCache) =
       PingPongCache.low_unknown_pongs 3
         { (⟨0, 1, {0}, {0}, false, false⟩ : PingPongCache) with
             unknown_pongs := ({0} : Finset ℕ).erase 0 }) :=
  ⟨by decide, C1_ttl_amended ⟨0, 1, {0}, {0}, false, false⟩ 0 3 (by decide)⟩

/-- C1 counterexample: with ttl 1, a ping timestamp inserted at time 0 is
still visible at times strictly greater than `0 + ttl`: the count accessor
`pending_pong_count` performs no expiry sweep at all (it still reports 1 no
matter when it is read), and even the sweeping accessor
`high_pending_pongs`, read at time 86401 > 0 + 1, still counts the entry
because the sweep compares only `(now - ts).seconds = 1 ≤ ttl`
(day component discarded), so with `allowed_delta = 0` it reports `true`
solely because of the supposedly expired entry. -/
theorem C1_counterexample :
    PingPongCache.pending_pong_count (((mkPingPongCache 0 1).handle_send_ping 0 0).1) = 1 ∧
    PingPongCache.high_pending_pongs 86401 (((mkPingPongCache 0 1).handle_send_ping 0 0).1)
      = true := by
  decide

lemma filter_stale_idem (now ttl : ℕ) (t : Finset ℕ) :
    ((t.filter fun x => ¬ timedelta_seconds now x > ttl).filter
        fun x => ¬ timedelta_seconds now x > ttl) =
      t.filter fun x => ¬ timedelta_seconds now x > ttl := by
  rw [Finset.filter_filter]
  apply Finset.filter_congr
  intro x _
  simp

lemma cleanup_pending_idem_state (now : ℕ) (s : PingPongCache) :
    PingPongCache.cleanup_pending_pongs now
        ((s.cleanup_pending_pongs now).cleanup_unknown_pongs now) =
      (s.cleanup_pending_pongs now).cleanup_unknown_pongs now := by
  unfold PingPongCache.cleanup_pending_pongs PingPongCache.cleanup_unknown_pongs
  simp only [PingPongCache.mk.injEq, and_true, true_and]
  exact filter_stale_idem now s.ttl s.pending_pongs

lemma cleanup_unknown_idem_state (now : ℕ) (s : PingPongCache) (b : Bool) :
    PingPongCache.cleanup_unknown_pongs now
        { (s.cleanup_pending_pongs now).cleanup_unknown_pongs now with
            pending_pong_logged := b } =
      { (s.cleanup_pending_pongs now).cleanup_unknown_pongs now with
          pending_pong_logged := b } := by
  unfold PingPongCache.cleanup_pending_pongs PingPongCache.cleanup_unknown_pongs
  simp only [PingPongCache.mk.injEq, and_true, true_and]
  exact filter_stale_idem now s.ttl s.unknown_pongs


lemma cleanup_unknown_idem_state2 (now : ℕ) (s : PingPongCache) :
    PingPongCache.cleanup_unknown_pongs now
        ((s.cleanup_pending_pongs now).cleanup_unknown_pongs now) =
      (s.cleanup_pending_pongs now).cleanup_unknown_pongs now := by
  unfold PingPongCache.cleanup_pending_pongs PingPongCache.cleanup_unknown_pongs
  simp only [PingPongCache.mk.injEq, and_true, true_and]
  exact filter_stale_idem now s.ttl s.unknown_pongs

/-- High `PENDING_PONG` evaluation: fires the mismatch event with the
passed count, logs the warning iff the warn-once flag was clear, sets the
flag. -/
lemma check_and_fire_pending_high (now cnt : ℕ) (s : PingPongCache)
    (hhigh : (s.cleanup_pending_pongs now).pending_pongs.card > s.allowed_delta) :
    s.check_and_fire_pong_event now PongKind.pendingPong cnt =
      ({ (s.cleanup_pending_pongs now).cleanup_unknown_pongs now with
           pending_pong_logged := true },
       [(PongKind.pendingPong, cnt)],
       if s.pending_pong_logged then [] else [PongKind.pendingPong]) := by
  have hnl : ¬ (2 * (s.cleanup_pending_pongs now).pending_pongs.card <
      (s.cleanup_pending_pongs now).allowed_delta ∧
      PongKind.pendingPong = PongKind.pendingPong) := by
    rintro ⟨hlow, -⟩
    simp only [cleanup_pending_allowed_delta] at hlow
    omega
  have hk1 : ¬ (2 * ((s.cleanup_pending_pongs now).cleanup_unknown_pongs now).unknown_pongs.card <
      ((s.cleanup_pending_pongs now).cleanup_unknown_pongs now).allowed_delta ∧
      PongKind.pendingPong = PongKind.unknownPong) := by
    rintro ⟨-, hk⟩
    exact PongKind.noConfusion hk
  have hp3 : (((s.cleanup_pending_pongs now).cleanup_unknown_pongs now).pending_pongs.card >
      ((s.cleanup_pending_pongs now).cleanup_unknown_pongs now).allowed_delta ∧
      PongKind.pendingPong = PongKind.pendingPong) :=
    ⟨by simpa only [cleanup_unknown_pending_pongs, cleanup_unknown_allowed_delta,
        cleanup_pending_allowed_delta] using hhigh, rfl⟩
  have hk2 : ¬ (({ (s.cleanup_pending_pongs now).cleanup_unknown_pongs now with
        pending_pong_logged := true } : PingPongCache).unknown_pongs.card >
      ({ (s.cleanup_pending_pongs now).cleanup_unknown_pongs now with
        pending_pong_logged := true } : PingPongCache).allowed_delta ∧
      PongKind.pendingPong = PongKind.unknownPong) := by
    rintro ⟨-, hk⟩
    exact PongKind.noConfusion hk
  unfold PingPongCache.check_and_fire_pong_event
  dsimp only
  rw [cleanup_pending_idem_state now s]
  rw [if_neg hnl, if_neg hk1, if_pos hp3]
  rw [cleanup_unknown_idem_state now s true]
  rw [if_neg hk2]
  simp only [cleanup_unknown_pending_logged, cleanup_pending_pending_logged]

/-- High `UNKNOWN_PONG` evaluation: NO event is fired; only the warn-once
log, and the flag is set. -/
lemma check_and_fire_unknown_high (now cnt : ℕ) (s : PingPongCache)
    (hhigh : ((s.cleanup_pending_pongs now).cleanup_unknown_pongs now).unknown_pongs.card >
      s.allowed_delta) :
    s.check_and_fire_pong_event now PongKind.unknownPong cnt =
      ({ (s.cleanup_pending_pongs now).cleanup_unknown_pongs now with
           unknown_pong_logged := true },
       [],
       if s.unknown_pong_logged then [] else [PongKind.unknownPong]) := by
  have hk1 : ¬ (2 * (s.cleanup_pending_pongs now).pending_pongs.card <
      (s.cleanup_pending_pongs now).allowed_delta ∧
      PongKind.unknownPong = PongKind.pendingPong) := by
    rintro ⟨-, hk⟩
    exact PongKind.noConfusion hk
  have hnl : ¬ (2 * ((s.cleanup_pending_pongs now).cleanup_unknown_pongs now).unknown_pongs.card <
      ((s.cleanup_pending_pongs now).cleanup_unknown_pongs now).allowed_delta ∧
      PongKind.unknownPong = PongKind.unknownPong) := by
    rintro ⟨hlow, -⟩
    simp only [cleanup_unknown_allowed_delta, cleanup_pending_allowed_delta] at hlow
    omega
  have hk2 : ¬ (((s.cleanup_pending_pongs now).cleanup_unknown_pongs now).pending_pongs.card >
      ((s.cleanup_pending_pongs now).cleanup_unknown_pongs now).allowed_delta ∧
      PongKind.unknownPong = PongKind.pendingPong) := by
    rintro ⟨-, hk⟩
    exact PongKind.noConfusion hk
  have hp4 : (((s.cleanup_pending_pongs now).cleanup_unknown_pongs now).unknown_pongs.card >
      ((s.cleanup_pending_pongs now).cleanup_unknown_pongs now).allowed_delta ∧
      PongKind.unknownPong = PongKind.unknownPong) :=
    ⟨by simpa only [cleanup_unknown_allowed_delta, cleanup_pending_allowed_delta]
        using hhigh, rfl⟩
  unfold PingPongCache.check_and_fire_pong_event
  dsimp only
  rw [cleanup_pending_idem_state now s]
  rw [if_neg hk1, if_neg hnl, if_neg hk2]
  rw [cleanup_unknown_idem_state2 now s]
  rw [if_pos hp4]
  simp only [cleanup_unknown_unknown_logged, cleanup_pending_unknown_logged]

/-- C2 (amended): whenever the live (post-sweep) count exceeds
`allowed_delta` at evaluation time, a `PENDING_PONG` evaluation fires a
mismatch event carrying the current count and logs its warning exactly when
the warn-once flag is still clear, setting the flag (so a repeated high
evaluation is suppressed until the low branch clears the flag again); an
`UNKNOWN_PONG` evaluation performs only the warn-once logging with the same
flag mechanics and fires no event — the original claim's
"PENDING_PONG and UNKNOWN_PONG alike" fails on the event part. -/
theorem C2_high_policy_amended (now cnt : ℕ) (s : PingPongCache)
    (hp : (s.cleanup_pending_pongs now).pending_pongs.card > s.allowed_delta)
    (hu : ((s.cleanup_pending_pongs now).cleanup_unknown_pongs now).unknown_pongs.card >
      s.allowed_delta) :
    s.check_and_fire_pong_event now PongKind.pendingPong cnt =
      ({ (s.cleanup_pending_pongs now).cleanup_unknown_pongs now with
           pending_pong_logged := true },
       [(PongKind.pendingPong, cnt)],
       if s.pending_pong_logged then [] else [PongKind.pendingPong]) ∧
    s.check_and_fire_pong_event now PongKind.unknownPong cnt =
      ({ (s.cleanup_pending_pongs now).cleanup_unknown_pongs now with
           unknown_pong_logged := true },
       [],
       if s.unknown_pong_logged then [] else [PongKind.unknownPong]) :=
  ⟨check_and_fire_pending_high now cnt s hp, check_and_fire_unknown_high now cnt s hu⟩

/-- C2 witness: concrete instance of `C2_high_policy_amended` on a cache
with `allowed_delta = 0` holding one fresh pending and one fresh unknown
timestamp, evaluated at time 2 with passed count 1. -/
theorem C2_high_policy_amended_witness :
    (PingPongCache.cleanup_pending_pongs 2
        (⟨0, 5, {0}, {1}, false, false⟩ : PingPongCache)).pending_pongs.card > 0 ∧
    ((PingPongCache.cleanup_pending_pongs 2
        (⟨0, 5, {0}, {1}, false, false⟩ : PingPongCache)).cleanup_unknown_pongs
          2).unknown_pongs.card > 0 ∧
    (PingPongCache.check_and_fire_pong_event 2 PongKind.pendingPong 1
        (⟨0, 5, {0}, {1}, false, false⟩ : PingPongCache) =
      ({ (PingPongCache.cleanup_pending_pongs 2
            (⟨0, 5, {0}, {1}, false, false⟩ : PingPongCache)).cleanup_unknown_pongs 2 with
           pending_pong_logged := true },
       [(PongKind.pendingPong, 1)], [PongKind.pendingPong]) ∧
     PingPongCache.check_and_fire_pong_event 2 PongKind.unknownPong 1
        (⟨0, 5, {0}, {1}, false, false⟩ : PingPongCache) =
      ({ (PingPongCache.cleanup_pending_pongs 2
            (⟨0, 5, {0}, {1}, false, false⟩ : PingPongCache)).cleanup_unknown_pongs 2 with
           unknown_pong_logged := true },
       [], [PongKind.unknownPong])) :=
  ⟨by decide, by decide,
   C2_high_policy_amended 2 1 ⟨0, 5, {0}, {1}, false, false⟩ (by decide) (by decide)⟩

/-- C2 counterexample: with `allowed_delta = 0` and ttl 100, an unknown
pong received at time 0 makes the live unknown count 1, exceeding the
threshold, yet the fired-event list is empty — only the warning is emitted.
A high UNKNOWN_PONG evaluation fires no mismatch event, contradicting the
claim's "PENDING_PONG and UNKNOWN_PONG alike". -/
theorem C2_counterexample :
    (((mkPingPongCache 0 100).handle_received_pong 0 0).1.unknown_pong_count = 1 ∧
     ((mkPingPongCache 0 100).handle_received_pong 0 0).2.1 = []) ∧
    ((mkPingPongCache 0 100).handle_received_pong 0 0).2.2 = [PongKind.unknownPong] := by
  decide

/-- C3: starting from a fresh cache with `allowed_delta = D`, sending `D+1`
pings with distinct unexpired timestamps (and no intervening pongs) makes
`high_pending_pongs` true, logs the pending-mismatch warning exactly once
over the whole run (the `pending_pong_logged` flag transitions false→true
once, at the crossing send), and then acknowledging the pongs until the
pending count is strictly below `D/2` (here: all of them, so the count
reaches 0 < D/2 for D ≥ 1) clears the flag and fires a zero-mismatch
`PENDING_PONG` recovery event. -/
theorem C3_threshold_crossing (D ttl now : ℕ) (L : List ℕ)
    (httl : 0 < ttl) (hlen : L.length = D + 1) (hnd : L.Nodup)
    (hfresh : ∀ ts ∈ L, timedelta_seconds now ts ≤ ttl) :
    (runPingPong now (L.map PingPongOp.sendPing)
        (mkPingPongCache D ttl)).1.high_pending_pongs now = true ∧
    (runPingPong now (L.map PingPongOp.sendPing)
        (mkPingPongCache D ttl)).1.pending_pong_logged = true ∧
    (runPingPong now (L.map PingPongOp.sendPing) (mkPingPongCache D ttl)).2.2 =
      [PongKind.pendingPong] ∧
    (1 ≤ D →
      (runPingPong now (L.map PingPongOp.receivedPong)
          (runPingPong now (L.map PingPongOp.sendPing)
            (mkPingPongCache D ttl)).1).1.pending_pong_count = 0 ∧
      (runPingPong now (L.map PingPongOp.receivedPong)
          (runPingPong now (L.map PingPongOp.sendPing)
            (mkPingPongCache D ttl)).1).1.pending_pong_logged = false ∧
      (PongKind.pendingPong, 0) ∈
        (runPingPong now (L.map PingPongOp.receivedPong)
          (runPingPong now (L.map PingPongOp.sendPing)
            (mkPingPongCache D ttl)).1).2.1) := by
  have hfr0 : ∀ t ∈ L, freshTs now (mkPingPongCache D ttl).ttl t := hfresh
  have hp0 : ∀ x ∈ (mkPingPongCache D ttl).pending_pongs,
      freshTs now (mkPingPongCache D ttl).ttl x := by
    intro x hx
    simp [mkPingPongCache] at hx
  have hu0 : ∀ x ∈ (mkPingPongCache D ttl).unknown_pongs,
      freshTs now (mkPingPongCache D ttl).ttl x := by
    intro x hx
    simp [mkPingPongCache] at hx
  have hdis0 : ∀ t ∈ L, t ∉ (mkPingPongCache D ttl).pending_pongs := by
    intro t _
    simp [mkPingPongCache]
  obtain ⟨e1, e2, e3, e4⟩ := runSends_sets now L (mkPingPongCache D ttl) hfr0 hp0 hu0
  have hcap : (mkPingPongCache D ttl).pending_pongs.card + L.length ≤
      (mkPingPongCache D ttl).allowed_delta + 1 := by
    simp [mkPingPongCache, hlen]
  have hlog0 : (mkPingPongCache D ttl).pending_pong_logged =
      decide ((mkPingPongCache D ttl).pending_pongs.card >
        (mkPingPongCache D ttl).allowed_delta) := by
    simp [mkPingPongCache]
  obtain ⟨g1, g2, g3⟩ := runSends_logged_warns now L (mkPingPongCache D ttl)
    hfr0 hp0 hu0 hnd hdis0 hcap hlog0
  have hpend : (runPingPong now (L.map PingPongOp.sendPing)
      (mkPingPongCache D ttl)).1.pending_pongs = L.toFinset := by
    rw [e1]
    simp [mkPingPongCache]
  have hcard : (runPingPong now (L.map PingPongOp.sendPing)
      (mkPingPongCache D ttl)).1.pending_pongs.card = D + 1 := by
    rw [hpend, List.toFinset_card_of_nodup hnd, hlen]
  have hfr1 : ∀ x ∈ (runPingPong now (L.map PingPongOp.sendPing)
      (mkPingPongCache D ttl)).1.pending_pongs,
      freshTs now (runPingPong now (L.map PingPongOp.sendPing)
        (mkPingPongCache D ttl)).1.ttl x := by
    rw [hpend, e3]
    intro x hx
    exact hfresh x (List.mem_toFinset.mp hx)
  have hfu1 : ∀ x ∈ (runPingPong now (L.map PingPongOp.sendPing)
      (mkPingPongCache D ttl)).1.unknown_pongs,
      freshTs now (runPingPong now (L.map PingPongOp.sendPing)
        (mkPingPongCache D ttl)).1.ttl x := by
    rw [e2]
    intro x hx
    simp [mkPingPongCache] at hx
  refine ⟨?_, ?_, ?_, fun hD => ?_⟩
  · unfold PingPongCache.high_pending_pongs
    rw [cleanup_pending_of_fresh hfr1, hcard, e4]
    simp [mkPingPongCache]
  · rw [g1]
    simp [mkPingPongCache, hlen]
  · refine g3 ?_ ?_
    · simp [mkPingPongCache, hlen]
    · simp [mkPingPongCache]
  · have hmem1 : ∀ t ∈ L, t ∈ (runPingPong now (L.map PingPongOp.sendPing)
        (mkPingPongCache D ttl)).1.pending_pongs := by
      rw [hpend]
      intro t ht
      exact List.mem_toFinset.mpr ht
    obtain ⟨a1, -, -, -⟩ := runAcks_sets now L
      (runPingPong now (L.map PingPongOp.sendPing) (mkPingPongCache D ttl)).1
      hnd hmem1 hfr1 hfu1
    have hlow : 2 * ((runPingPong now (L.map PingPongOp.sendPing)
        (mkPingPongCache D ttl)).1.pending_pongs.card - L.length) <
        (runPingPong now (L.map PingPongOp.sendPing)
          (mkPingPongCache D ttl)).1.allowed_delta := by
      rw [hcard, hlen, e4]
      simp [mkPingPongCache]
      omega
    have hne : L ≠ [] := by
      intro hL
      rw [hL] at hlen
      simp at hlen
    obtain ⟨b1, b2⟩ := runAcks_low_tail now L
      (runPingPong now (L.map PingPongOp.sendPing) (mkPingPongCache D ttl)).1
      hne hnd hmem1 hfr1 hfu1 hlow
    refine ⟨?_, b1, b2⟩
    unfold PingPongCache.pending_pong_count
    rw [a1, hpend]
    simp

/-- C3 witness: concrete instance of `C3_threshold_crossing` with
`allowed_delta = 2`, ttl 10, three pings at timestamps 0, 1, 2 evaluated at
time 2. -/
theorem C3_threshold_crossing_witness :
    (0 < 10 ∧ ([0, 1, 2] : List ℕ).length = 2 + 1 ∧ ([0, 1, 2] : List ℕ).Nodup ∧
      ∀ ts ∈ ([0, 1, 2] : List ℕ), timedelta_seconds 2 ts ≤ 10) ∧
    ((runPingPong 2 (([0, 1, 2] : List ℕ).map PingPongOp.sendPing)
        (mkPingPongCache 2 10)).1.high_pending_pongs 2 = true ∧
     (runPingPong 2 (([0, 1, 2] : List ℕ).map PingPongOp.sendPing)
        (mkPingPongCache 2 10)).1.pending_pong_logged = true ∧
     (runPingPong 2 (([0, 1, 2] : List ℕ).map PingPongOp.sendPing)
        (mkPingPongCache 2 10)).2.2 = [PongKind.pendingPong] ∧
     (1 ≤ 2 →
       (runPingPong 2 (([0, 1, 2] : List ℕ).map PingPongOp.receivedPong)
           (runPingPong 2 (([0, 1, 2] : List ℕ).map PingPongOp.sendPing)
             (mkPingPongCache 2 10)).1).1.pending_pong_count = 0 ∧
       (runPingPong 2 (([0, 1, 2] : List ℕ).map PingPongOp.receivedPong)
           (runPingPong 2 (([0, 1, 2] : List ℕ).map PingPongOp.sendPing)
             (mkPingPongCache 2 10)).1).1.pending_pong_logged = false ∧
       (PongKind.pendingPong, 0) ∈
         (runPingPong 2 (([0, 1, 2] : List ℕ).map PingPongOp.receivedPong)
           (runPingPong 2 (([0, 1, 2] : List ℕ).map PingPongOp.sendPing)
             (mkPingPongCache 2 10)).1).2.1)) :=
  ⟨⟨by decide, by decide, by decide, by decide⟩,
   C3_threshold_crossing 2 10 2 [0, 1, 2] (by decide) (by decide) (by decide) (by decide)⟩

/-- C8 (amended): sending N pings with distinct unexpired timestamps and
then receiving the same N timestamps leaves `pending_pong_count = 0`; and a
`handle_received_pong` call with a timestamp that is neither pending nor
already in the unknown set, with nothing expired, increases
`unknown_pong_count` by exactly 1 and leaves the pending set unchanged.
(The original claim fails for a duplicated unknown timestamp: the unknown
store is a set, so a repeat absorbs silently.)  All timestamps are required
to lie at or before the evaluation time, the domain where the
whole-seconds model of `timedelta.seconds` is exact — a pong timestamp in
the future of `datetime.now()` would instead be swept immediately, since
Python normalizes the negative timedelta to a `.seconds` component of
`86400 - k`. -/
theorem C8_ping_pong_counts_amended (now D ttl : ℕ) (L : List ℕ)
    (s : PingPongCache) (ts : ℕ)
    (httl : 0 < ttl) (hnd : L.Nodup)
    (hpast : ∀ t ∈ L, t ≤ now)
    (hfresh : ∀ t ∈ L, timedelta_seconds now t ≤ ttl)
    (hts_p : ts ∉ s.pending_pongs) (hts_u : ts ∉ s.unknown_pongs)
    (hts_le : ts ≤ now)
    (hsp_le : ∀ x ∈ s.pending_pongs, x ≤ now)
    (hsu_le : ∀ x ∈ s.unknown_pongs, x ≤ now)
    (hsp : ∀ x ∈ s.pending_pongs, timedelta_seconds now x ≤ s.ttl)
    (hsu : ∀ x ∈ s.unknown_pongs, timedelta_seconds now x ≤ s.ttl)
    (htsf : timedelta_seconds now ts ≤ s.ttl) :
    (runPingPong now (L.map PingPongOp.sendPing ++ L.map PingPongOp.receivedPong)
        (mkPingPongCache D ttl)).1.pending_pong_count = 0 ∧
    (s.handle_received_pong now ts).1.unknown_pong_count = s.unknown_pong_count + 1 ∧
    (s.handle_received_pong now ts).1.pending_pongs = s.pending_pongs := by
  refine ⟨?_, ?_, ?_⟩
  · rw [runPingPong_append_state]
    have hfr0 : ∀ t ∈ L, freshTs now (mkPingPongCache D ttl).ttl t := hfresh
    have hp0 : ∀ x ∈ (mkPingPongCache D ttl).pending_pongs,
        freshTs now (mkPingPongCache D ttl).ttl x := by
      intro x hx
      simp [mkPingPongCache] at hx
    have hu0 : ∀ x ∈ (mkPingPongCache D ttl).unknown_pongs,
        freshTs now (mkPingPongCache D ttl).ttl x := by
      intro x hx
      simp [mkPingPongCache] at hx
    obtain ⟨e1, e2, e3, e4⟩ := runSends_sets now L (mkPingPongCache D ttl) hfr0 hp0 hu0
    have hpend : (runPingPong now (L.map PingPongOp.sendPing)
        (mkPingPongCache D ttl)).1.pending_pongs = L.toFinset := by
      rw [e1]
      simp [mkPingPongCache]
    have hfr1 : ∀ x ∈ (runPingPong now (L.map PingPongOp.sendPing)
        (mkPingPongCache D ttl)).1.pending_pongs,
        freshTs now (runPingPong now (L.map PingPongOp.sendPing)
          (mkPingPongCache D ttl)).1.ttl x := by
      rw [hpend, e3]
      intro x hx
      exact hfresh x (List.mem_toFinset.mp hx)
    have hfu1 : ∀ x ∈ (runPingPong now (L.map PingPongOp.sendPing)
        (mkPingPongCache D ttl)).1.unknown_pongs,
        freshTs now (runPingPong now (L.map PingPongOp.sendPing)
          (mkPingPongCache D ttl)).1.ttl x := by
      rw [e2]
      intro x hx
      simp [mkPingPongCache] at hx
    have hmem1 : ∀ t ∈ L, t ∈ (runPingPong now (L.map PingPongOp.sendPing)
        (mkPingPongCache D ttl)).1.pending_pongs := by
      rw [hpend]
      intro t ht
      exact List.mem_toFinset.mpr ht
    obtain ⟨a1, -, -, -⟩ := runAcks_sets now L
      (runPingPong now (L.map PingPongOp.sendPing) (mkPingPongCache D ttl)).1
      hnd hmem1 hfr1 hfu1
    unfold PingPongCache.pending_pong_count
    rw [a1, hpend]
    simp
  · rw [handle_received_pong_unknown_fresh now ts s hts_p hsp hsu htsf]
    unfold PingPongCache.unknown_pong_count
    have hc : (insert ts s.unknown_pongs).card = s.unknown_pongs.card + 1 :=
      Finset.card_insert_of_not_mem hts_u
    split_ifs <;> exact hc
  · rw [handle_received_pong_unknown_fresh now ts s hts_p hsp hsu htsf]
    split_ifs <;> rfl

/-- C8 witness: concrete instance of `C8_ping_pong_counts_amended` at
evaluation time 2 with two pings/pongs at timestamps 0 and 1, and an
unmatched pong at timestamp 2 against a cache holding pending {0} and
unknown {1} — every timestamp at or before the evaluation time and within
the ttl. -/
theorem C8_ping_pong_counts_amended_witness :
    (0 < 10 ∧ ([0, 1] : List ℕ).Nodup ∧
     (∀ t ∈ ([0, 1] : List ℕ), t ≤ 2) ∧
     (∀ t ∈ ([0, 1] : List ℕ), timedelta_seconds 2 t ≤ 10) ∧
     2 ∉ (⟨5, 10, {0}, {1}, false, false⟩ : PingPongCache).pending_pongs ∧
     2 ∉ (⟨5, 10, {0}, {1}, false, false⟩ : PingPongCache).unknown_pongs ∧
     (2 : ℕ) ≤ 2 ∧
     (∀ x ∈ (⟨5, 10, {0}, {1}, false, false⟩ : PingPongCache).pending_pongs, x ≤ 2) ∧
     (∀ x ∈ (⟨5, 10, {0}, {1}, false, false⟩ : PingPongCache).unknown_pongs, x ≤ 2) ∧
     (∀ x ∈ (⟨5, 10, {0}, {1}, false, false⟩ : PingPongCache).pending_pongs,
       timedelta_seconds 2 x ≤ (⟨5, 10, {0}, {1}, false, false⟩ : PingPongCache).ttl) ∧
     (∀ x ∈ (⟨5, 10, {0}, {1}, false, false⟩ : PingPongCache).unknown_pongs,
       timedelta_seconds 2 x ≤ (⟨5, 10, {0}, {1}, false, false⟩ : PingPongCache).ttl) ∧
     timedelta_seconds 2 2 ≤ (⟨5, 10, {0}, {1}, false, false⟩ : PingPongCache).ttl) ∧
    ((runPingPong 2 (([0, 1] : List ℕ).map PingPongOp.sendPing ++
        ([0, 1] : List ℕ).map PingPongOp.receivedPong)
        (mkPingPongCache 3 10)).1.pending_pong_count = 0 ∧
     (PingPongCache.handle_received_pong 2 2
        (⟨5, 10, {0}, {1}, false, false⟩ : PingPongCache)).1.unknown_pong_count =
       (⟨5, 10, {0}, {1}, false, false⟩ : PingPongCache).unknown_pong_count + 1 ∧
     (PingPongCache.handle_received_pong 2 2
        (⟨5, 10, {0}, {1}, false, false⟩ : PingPongCache)).1.pending_pongs =
       (⟨5, 10, {0}, {1}, false, false⟩ : PingPongCache).pending_pongs) :=
  ⟨⟨by decide, by decide, by decide, by decide, by decide, by decide, by decide, by decide,
    by decide, by decide, by decide, by decide⟩,
   C8_ping_pong_counts_amended 2 3 10 [0, 1] ⟨5, 10, {0}, {1}, false, false⟩ 2
     (by decide) (by decide) (by decide) (by decide) (by decide) (by decide) (by decide)
     (by decide) (by decide) (by decide) (by decide) (by decide)⟩

/-- C8 counterexample: with an empty pending set, receiving the SAME
unmatched pong timestamp 3 twice at evaluation time 5 (so the timestamp is
in the past and fresh: its `timedelta.seconds` age is 2 ≤ ttl = 10) leaves
`unknown_pong_count` at 1 after the second call — the second call's
timestamp is not in the pending set, yet the count does not increase by 1,
because the unknown store is a set. -/
theorem C8_counterexample :
    (((mkPingPongCache 5 10).handle_received_pong 5 3).1.unknown_pong_count = 1 ∧
     ((((mkPingPongCache 5 10).handle_received_pong 5 3).1.handle_received_pong 5 3)).1.unknown_pong_count = 1) ∧
    3 ∉ ((mkPingPongCache 5 10).handle_received_pong 5 3).1.pending_pongs := by
  decide

/-! DeviceDetailsCache (dynamic.py:31-130). -/

/-- Modelled from the spec: `InterfaceName.BIDCOS_RF` (hahomematic.const,
not under src/), the fixed default interface name returned by
`get_interface` for unmapped addresses.  Its exact text is irrelevant to
the claims. -/
def BIDCOS_RF : String := "BidCos-RF"

/-- Python `x or default` for an optional string: `None` and the empty
string are falsy. -/
def py_str_or (o : Option String) (d : String) : String :=
  match o with
  | some s => if s = "" then d else s
  | none => d

/-- The slice of `HmDevice` that `DeviceDetailsCache.remove_device` reads:
the device address and the device's channel addresses. -/
structure HmDevice where
  device_address : String
  channels : List String

/-- State of `DeviceDetailsCache` (dynamic.py:34-42); Python dicts become
`String → Option _` maps (key order is irrelevant to every accessor the
claims mention). -/
structure DeviceDetailsCache where
  channel_rooms : String → Option (Finset String)
  device_channel_ids : String → Option String
  functions : String → Option (List String)
  interface_cache : String → Option String
  names_cache : String → Option String

/-- Delete one key from a map (Python `del d[k]` guarded by `k in d`; a
missing key is left untouched, which coincides with the unguarded
functional update). -/
def mapDelete (m : String → Option String) (k : String) : String → Option String :=
  fun a => if a = k then none else m a

/-- `DeviceDetailsCache.add_name` (dynamic.py:65-68): first write wins. -/
def DeviceDetailsCache.add_name (address name : String) (c : DeviceDetailsCache) :
    DeviceDetailsCache :=
  match c.names_cache address with
  | some _ => c
  | none => { c with names_cache := fun a => if a = address then some name else c.names_cache a }

/-- `DeviceDetailsCache.get_name` (dynamic.py:70-72). -/
def DeviceDetailsCache.get_name (address : String) (c : DeviceDetailsCache) : Option String :=
  c.names_cache address

/-- `DeviceDetailsCache.add_interface` (dynamic.py:74-77): first write
wins. -/
def DeviceDetailsCache.add_interface (address interface : String) (c : DeviceDetailsCache) :
    DeviceDetailsCache :=
  match c.interface_cache address with
  | some _ => c
  | none =>
    { c with interface_cache := fun a => if a = address then some interface else c.interface_cache a }

/-- `DeviceDetailsCache.get_interface` (dynamic.py:79-81):
`self._interface_cache.get(address) or InterfaceName.BIDCOS_RF`. -/
def DeviceDetailsCache.get_interface (address : String) (c : DeviceDetailsCache) : String :=
  py_str_or (c.interface_cache address) BIDCOS_RF

/-- `DeviceDetailsCache.remove_device` (dynamic.py:117-123): delete the
device's own name entry and each of its channels' name entries; nothing
else is touched. -/
def DeviceDetailsCache.remove_device (device : HmDevice) (c : DeviceDetailsCache) :
    DeviceDetailsCache :=
  { c with names_cache :=
      (device.channels.foldl (fun m ca => mapDelete m ca)
        (mapDelete c.names_cache device.device_address)) }

lemma foldl_mapDelete_eq (k : String) :
    ∀ (chs : List String) (m : String → Option String),
      chs.foldl (fun m ca => mapDelete m ca) m k =
        if k ∈ chs then none else m k := by
  intro chs
  induction chs with
  | nil => intro m; simp
  | cons ch rest ih =>
    intro m
    rw [List.foldl_cons, ih]
    by_cases hk : k ∈ rest
    · simp [hk]
    · by_cases hck : k = ch
      · simp [hk, hck, mapDelete]
      · simp [hk, hck, mapDelete]

/-- C9: after `remove_device`, `get_name` is absent (`none`) for the device
address and for every one of its channel addresses, `get_name` for any
other address is unchanged, `get_interface` returns exactly what it
returned before for every address, and the rooms, functions, interface and
channel-id maps are untouched. -/
theorem C9_remove_device_frame (c : DeviceDetailsCache) (d : HmDevice) :
    (DeviceDetailsCache.get_name d.device_address (c.remove_device d) = none) ∧
    (∀ ca, ca ∈ d.channels →
      DeviceDetailsCache.get_name ca (c.remove_device d) = none) ∧
    (∀ a, a ≠ d.device_address → a ∉ d.channels →
      DeviceDetailsCache.get_name a (c.remove_device d) =
        DeviceDetailsCache.get_name a c) ∧
    (∀ a, DeviceDetailsCache.get_interface a (c.remove_device d) =
      DeviceDetailsCache.get_interface a c) ∧
    (c.remove_device d).channel_rooms = c.channel_rooms ∧
    (c.remove_device d).functions = c.functions ∧
    (c.remove_device d).interface_cache = c.interface_cache ∧
    (c.remove_device d).device_channel_ids = c.device_channel_ids := by
  refine ⟨?_, ?_, ?_, fun a => rfl, rfl, rfl, rfl, rfl⟩
  · unfold DeviceDetailsCache.get_name DeviceDetailsCache.remove_device
    dsimp only
    rw [foldl_mapDelete_eq]
    by_cases h : d.device_address ∈ d.channels
    · simp [h]
    · simp [h, mapDelete]
  · intro ca hca
    unfold DeviceDetailsCache.get_name DeviceDetailsCache.remove_device
    dsimp only
    rw [foldl_mapDelete_eq]
    simp [hca]
  · intro a ha hch
    unfold DeviceDetailsCache.get_name DeviceDetailsCache.remove_device
    dsimp only
    rw [foldl_mapDelete_eq]
    simp [hch, mapDelete, ha]

/-- C9 witness: concrete instance of `C9_remove_device_frame` on a cache
naming device "DEV" and channels "DEV:1", "DEV:2" (with an interface entry
for "DEV:1"), removing the device ⟨"DEV", ["DEV:1", "DEV:2"]⟩. -/
theorem C9_remove_device_frame_witness :
    (DeviceDetailsCache.get_name "DEV"
      (DeviceDetailsCache.remove_device ⟨"DEV", ["DEV:1", "DEV:2"]⟩
        ⟨fun _ => none, fun _ => none, fun _ => none,
         fun a => if a = "DEV:1" then some "HmIP-RF" else none,
         fun a => if a = "DEV" then some "dev name"
           else if a = "DEV:1" then some "ch1" else if a = "DEV:2" then some "ch2"
           else none⟩) = none) ∧
    (DeviceDetailsCache.get_name "DEV:1"
      (DeviceDetailsCache.remove_device ⟨"DEV", ["DEV:1", "DEV:2"]⟩
        ⟨fun _ => none, fun _ => none, fun _ => none,
         fun a => if a = "DEV:1" then some "HmIP-RF" else none,
         fun a => if a = "DEV" then some "dev name"
           else if a = "DEV:1" then some "ch1" else if a = "DEV:2" then some "ch2"
           else none⟩) = none) ∧
    (DeviceDetailsCache.get_interface "DEV:1"
      (DeviceDetailsCache.remove_device ⟨"DEV", ["DEV:1", "DEV:2"]⟩
        ⟨fun _ => none, fun _ => none, fun _ => none,
         fun a => if a = "DEV:1" then some "HmIP-RF" else none,
         fun a => if a = "DEV" then some "dev name"
           else if a = "DEV:1" then some "ch1" else if a = "DEV:2" then some "ch2"
           else none⟩) =
      DeviceDetailsCache.get_interface "DEV:1"
        ⟨fun _ => none, fun _ => none, fun _ => none,
         fun a => if a = "DEV:1" then some "HmIP-RF" else none,
         fun a => if a = "DEV" then some "dev name"
           else if a = "DEV:1" then some "ch1" else if a = "DEV:2" then some "ch2"
           else none⟩) := by
  obtain ⟨h1, h2, -, h4, -⟩ := C9_remove_device_frame
    ⟨fun _ => none, fun _ => none, fun _ => none,
     fun a => if a = "DEV:1" then some "HmIP-RF" else none,
     fun a => if a = "DEV" then some "dev name"
       else if a = "DEV:1" then some "ch1" else if a = "DEV:2" then some "ch2"
       else none⟩ ⟨"DEV", ["DEV:1", "DEV:2"]⟩
  exact ⟨h1, h2 "DEV:1" (by simp), h4 "DEV:1"⟩

/-! CentralDataCache (dynamic.py:133-187).  Time is modelled as ℚ seconds
so that the fractional `MAX_CACHE_AGE / 2` gate window is exact. -/

/-- Modelled from the spec: `INIT_DATETIME` (hahomematic.const, not under
src/), the sentinel "very old" datetime a cleared cache resets
`last_refreshed` to; modelled as time 0 on the rational timeline. -/
def INIT_DATETIME : ℚ := 0

/-- Modelled from the spec: `changed_within_seconds` (hahomematic.support,
not under src/).  The spec defines staleness as
`is_stale(last_refreshed, max_age) := now() - last_refreshed > max_age`;
`changed_within_seconds` is its negation, `now - last_change ≤ max_age`. -/
def changed_within_seconds (last_change max_age now : ℚ) : Bool :=
  decide (now - last_change ≤ max_age)

/-- Result of a `CentralDataCache.get_data` lookup: either the cached raw
value or the `NO_CACHE_ENTRY` sentinel (hahomematic.const). -/
inductive CacheLookup where
  | NO_CACHE_ENTRY
  | entry (v : String)
deriving DecidableEq, Repr

/-- State of `CentralDataCache` (dynamic.py:136-141): the value dict as an
association list (its `len` drives `is_empty`) plus `last_refreshed`.
`MAX_CACHE_AGE` (hahomematic.const, not under src/) is passed explicitly
as the `max_cache_age` argument of the time-gated operations. -/
structure CentralDataCache where
  value_cache : List (String × String)
  last_refreshed : ℚ

/-- `CentralDataCache.clear` (dynamic.py:184-187). -/
def CentralDataCache.clear (c : CentralDataCache) : CentralDataCache :=
  { value_cache := [], last_refreshed := INIT_DATETIME }

/-- `CentralDataCache.is_empty` (dynamic.py:143-151): an empty dict is
empty; a stale cache self-clears and reports empty; otherwise non-empty.
Returns the reported value together with the (possibly cleared) state. -/
def CentralDataCache.is_empty (max_cache_age now : ℚ) (c : CentralDataCache) :
    Bool × CentralDataCache :=
  if c.value_cache.length = 0 then (true, c)
  else if ¬ changed_within_seconds c.last_refreshed max_cache_age now then (true, c.clear)
  else (false, c)

/-- `CentralDataCache.load` (dynamic.py:153-160): skipped entirely (no
backend fetch, state untouched) when the last refresh is within half the
max cache age; otherwise clears and performs one `fetch_all_device_data`
per client (the backend then repopulates the cache through `add_data`
callbacks).  The boolean records whether the backend fetch happened. -/
def CentralDataCache.load (max_cache_age now : ℚ) (c : CentralDataCache) :
    Bool × CentralDataCache :=
  if changed_within_seconds c.last_refreshed (max_cache_age / 2) now then (false, c)
  else (true, c.clear)

/-- `CentralDataCache.add_data` (dynamic.py:167-170): dict-update merge of
the fetched data, then stamp `last_refreshed = now`. -/
def CentralDataCache.add_data (now : ℚ) (all_device_data : List (String × String))
    (c : CentralDataCache) : CentralDataCache :=
  { value_cache :=
      (all_device_data.foldl
        (fun acc kv =>
          if acc.any (fun p => p.1 = kv.1) then
            acc.map (fun p => if p.1 = kv.1 then kv else p)
          else acc ++ [kv]) c.value_cache),
    last_refreshed := now }

/-- `CentralDataCache.get_data` (dynamic.py:172-182): consult `is_empty`
first (inheriting its self-clearing side effect); when non-empty, look up
`f"{interface}.{channel_address.replace(':','%3A')}.{parameter}"`, falling
back to the `NO_CACHE_ENTRY` sentinel. -/
def CentralDataCache.get_data (max_cache_age now : ℚ)
    (interface channel_address parameter : String) (c : CentralDataCache) :
    CacheLookup × CentralDataCache :=
  let e := c.is_empty max_cache_age now
  if e.1 = false then
    let key := interface ++ "." ++ (channel_address.replace ":" "%3A") ++ "." ++ parameter
    (match e.2.value_cache.find? (fun p => p.1 = key) with
      | some p => CacheLookup.entry p.2
      | none => CacheLookup.NO_CACHE_ENTRY, e.2)
  else
    (CacheLookup.NO_CACHE_ENTRY, e.2)

/-- C4: a cache whose `last_refreshed` is more than `max_cache_age` seconds
old reports empty on access — `is_empty` returns true and self-clears the
value dict as a side effect, and `get_data` returns the `NO_CACHE_ENTRY`
sentinel; and a `load()` call made within `max_cache_age / 2` seconds of a
prior refresh performs no backend fetch and leaves the state unchanged. -/
theorem C4_cache_staleness (max_cache_age now : ℚ) (c : CentralDataCache)
    (hstale : now - c.last_refreshed > max_cache_age) :
    ((c.is_empty max_cache_age now).1 = true ∧
     (c.is_empty max_cache_age now).2.value_cache = [] ∧
     ∀ i a p, (c.get_data max_cache_age now i a p).1 = CacheLookup.NO_CACHE_ENTRY) ∧
    (∀ c2 : CentralDataCache, now - c2.last_refreshed ≤ max_cache_age / 2 →
      c2.load max_cache_age now = (false, c2)) := by
  have hempty : (c.is_empty max_cache_age now).1 = true ∧
      (c.is_empty max_cache_age now).2.value_cache = [] := by
    unfold CentralDataCache.is_empty
    by_cases hlen : c.value_cache.length = 0
    · rw [if_pos hlen]
      exact ⟨rfl, List.length_eq_zero.mp hlen⟩
    · rw [if_neg hlen, if_pos]
      · exact ⟨rfl, rfl⟩
      · unfold changed_within_seconds
        simp only [decide_eq_true_eq]
        push_neg
        exact hstale
  refine ⟨⟨hempty.1, hempty.2, ?_⟩, ?_⟩
  · intro i a p
    unfold CentralDataCache.get_data
    rw [if_neg]
    rw [hempty.1]
    simp
  · intro c2 hfresh
    unfold CentralDataCache.load
    rw [if_pos]
    unfold changed_within_seconds
    exact decide_eq_true hfresh

/-- C4 witness: concrete instance of `C4_cache_staleness` with
`max_cache_age = 60`, a cache refreshed at time 0 holding one entry, read
at time 61; and a skipped reload at time 20 of a cache refreshed at time
0. -/
theorem C4_cache_staleness_witness :
    ((61 : ℚ) - 0 > 60) ∧
    (((CentralDataCache.is_empty 60 61 ⟨[("k", "v")], 0⟩).1 = true ∧
      (CentralDataCache.is_empty 60 61 ⟨[("k", "v")], 0⟩).2.value_cache = [] ∧
      ∀ i a p, (CentralDataCache.get_data 60 61 i a p ⟨[("k", "v")], 0⟩).1 =
        CacheLookup.NO_CACHE_ENTRY) ∧
     (∀ c2 : CentralDataCache, (61 : ℚ) - c2.last_refreshed ≤ 60 / 2 →
       c2.load 60 61 = (false, c2))) :=
  ⟨by norm_num, C4_cache_staleness 60 61 ⟨[("k", "v")], 0⟩ (by norm_num)⟩

/-! Light entity command layer (platforms/custom/light.py). -/

/-- Python `int()` truncation toward zero, on a rational. -/
def py_int (q : ℚ) : ℤ := if 0 ≤ q then ⌊q⌋ else ⌈q⌉

/-- Python `x or default` for an optional float: `None` and `0.0` are
falsy. -/
def py_q_or (o : Option ℚ) (d : ℚ) : ℚ :=
  match o with
  | some v => if v = 0 then d else v
  | none => d

/-- Python truthiness of an optional float. -/
def py_q_truthy (o : Option ℚ) : Bool :=
  match o with
  | some v => decide (v ≠ 0)
  | none => false

/-- `TimeUnit` (light.py:82-87), an IntEnum with `SECONDS = 0`. -/
inductive TimeUnit where
  | SECONDS
  | MINUTES
  | HOURS
deriving DecidableEq, Repr

/-- The IntEnum value (light.py:85-87). -/
def TimeUnit.toInt : TimeUnit → ℤ
  | TimeUnit.SECONDS => 0
  | TimeUnit.MINUTES => 1
  | TimeUnit.HOURS => 2

/-- Python truthiness of an optional `TimeUnit`: `None` is falsy and so is
`SECONDS`, whose IntEnum value is 0. -/
def optTimeUnit_py_truthy (o : Option TimeUnit) : Bool :=
  match o with
  | some u => decide (u.toInt ≠ 0)
  | none => false

/-- `_recalc_unit_timer` (light.py:722-733): the 111600 sentinel passes
through with no unit; a value above 16343 is rescaled to minutes, and again
to hours if still above 16343; otherwise seconds. -/
def _recalc_unit_timer (time : ℚ) : ℚ × Option TimeUnit :=
  if time = 111600 then (time, none)
  else
    let (time, ramp_time_unit) :=
      if time > 16343 then (time / 60, TimeUnit.MINUTES) else (time, TimeUnit.SECONDS)
    let (time, ramp_time_unit) :=
      if time > 16343 then (time / 60, TimeUnit.HOURS) else (time, ramp_time_unit)
    (time, some ramp_time_unit)

/-- `FixedColor` (light.py:67-79). -/
inductive FixedColor where
  | BLACK
  | BLUE
  | DO_NOT_CARE
  | GREEN
  | OLD_VALUE
  | PURPLE
  | RED
  | TURQUOISE
  | WHITE
  | YELLOW
deriving DecidableEq, Repr

/-- `_convert_color` (light.py:736-756): reduce an (hue, saturation) pair
to the device's fixed 8-color palette. -/
def _convert_color (color : ℚ × ℚ) : FixedColor :=
  let hue : ℤ := py_int color.1
  if py_int color.2 < 5 then FixedColor.WHITE
  else if 30 < hue ∧ hue ≤ 90 then FixedColor.YELLOW
  else if 90 < hue ∧ hue ≤ 150 then FixedColor.GREEN
  else if 150 < hue ∧ hue ≤ 210 then FixedColor.TURQUOISE
  else if 210 < hue ∧ hue ≤ 270 then FixedColor.BLUE
  else if 270 < hue ∧ hue ≤ 330 then FixedColor.PURPLE
  else FixedColor.RED

/-- A parameter write issued through the collector by the dimmer/light
`turn_on` paths the claims mention. -/
inductive LightWrite where
  | LEVEL (v : ℚ)
  | RAMP_TIME_VALUE (v : ℚ)
  | ON_TIME_VALUE (v : ℚ)
  | ON_TIME_UNIT (u : TimeUnit)
deriving DecidableEq, Repr

/-- `CeIpRGBWLight._set_on_time_value` (light.py:561-569): rescale, write
the unit only when it is truthy (`None` and `SECONDS`(=0) are falsy), then
write the value. -/
def CeIpRGBWLight.set_on_time_value (on_time : ℚ) : List LightWrite :=
  let r := _recalc_unit_timer on_time
  (if optTimeUnit_py_truthy r.2 then [LightWrite.ON_TIME_UNIT (r.2.getD TimeUnit.SECONDS)]
   else []) ++
  [LightWrite.ON_TIME_VALUE r.1]

example : _recalc_unit_timer 16344 = (1362 / 5, some TimeUnit.MINUTES) := by
  norm_num [_recalc_unit_timer]
example : py_int (50 : ℚ) = 50 := by decide
example : _convert_color (91, 100) = FixedColor.GREEN := by decide

/-- The slice of `CeDimmer` state the claims depend on: the LEVEL
sub-entity's backend value, plus the `OnTimeMixin` stored on-time. -/
structure CeDimmer where
  level : Option ℚ
  on_time : Option ℚ

/-- `CeDimmer.is_on` (light.py:156-159):
`value is not None and value > _DIMMER_OFF`. -/
def CeDimmer.is_on (d : CeDimmer) : Bool :=
  match d.level with
  | some v => decide (v > 0)
  | none => false

/-- `CeDimmer.brightness` (light.py:161-164):
`int((value or _MIN_BRIGHTNESS) * _MAX_BRIGHTNESS)`. -/
def CeDimmer.brightness (d : CeDimmer) : ℤ :=
  py_int (py_q_or d.level 0 * 255)

/-- `CeDimmer.hs_color` (light.py:190-193): the base dimmer has none. -/
def CeDimmer.hs_color (d : CeDimmer) : Option (ℚ × ℚ) := none

/-- `CeDimmer.color_temp` (light.py:185-188): the base dimmer has none. -/
def CeDimmer.color_temp (d : CeDimmer) : Option ℤ := none

/-- `CeDimmer.effect` (light.py:220-223): the base dimmer has none. -/
def CeDimmer.effect (d : CeDimmer) : Option String := none

/-- Modelled from the spec: `OnTimeMixin.get_on_time_and_cleanup`
(hahomematic.platforms.support, not under src/): an explicit take-and-clear
of the stored on-time. -/
def CeDimmer.get_on_time_and_cleanup (d : CeDimmer) : Option ℚ × CeDimmer :=
  (d.on_time, { d with on_time := none })

/-- The keyword arguments of `turn_on` (`LightOnArgs`, light.py:119-127);
an absent key is `none`. -/
structure LightOnArgs where
  brightness : Option ℤ := none
  color_temp : Option ℤ := none
  effect : Option String := none
  hs_color : Option (ℚ × ℚ) := none
  on_time : Option ℚ := none
  ramp_time : Option ℚ := none

/-- `len(kwargs)` for an `is_state_change` call: the number of keys
present, counting the `on`/`off` markers. -/
def kwargs_len (on_kw off_kw : Option Bool) (k : LightOnArgs) : ℕ :=
  (if on_kw.isSome then 1 else 0) + (if off_kw.isSome then 1 else 0) +
  (if k.brightness.isSome then 1 else 0) + (if k.color_temp.isSome then 1 else 0) +
  (if k.effect.isSome then 1 else 0) + (if k.hs_color.isSome then 1 else 0) +
  (if k.on_time.isSome then 1 else 0) + (if k.ramp_time.isSome then 1 else 0)

/-- `CeDimmer.is_state_change` (light.py:278-310), checks in source order;
the final fallthrough is `CustomEntity.is_state_change`, modelled from the
spec (platforms/custom/entity.py is not under src/): "returns true at the
first field that would actually change" — with every field checked and
unchanged, it returns false. -/
def CeDimmer.is_state_change (d : CeDimmer) (on_kw off_kw : Option Bool)
    (k : LightOnArgs) : Bool :=
  if on_kw.isSome ∧ d.is_on ≠ true ∧ kwargs_len on_kw off_kw k = 1 then true
  else if off_kw.isSome ∧ d.is_on ≠ false ∧ kwargs_len on_kw off_kw k = 1 then true
  else if (match k.brightness with
    | some b => decide (b ≠ d.brightness)
    | none => false) then true
  else if (match k.hs_color with
    | some hs => decide (some hs ≠ d.hs_color)
    | none => false) then true
  else if (match k.color_temp with
    | some ct => decide (some ct ≠ d.color_temp)
    | none => false) then true
  else if (match k.effect with
    | some e => decide (some e ≠ d.effect)
    | none => false) then true
  else if k.ramp_time.isSome then true
  else if k.on_time.isSome then true
  else false

/-- `CeDimmer.turn_on` (light.py:230-245): guard through `is_state_change`
with `on=True`; then in order, a truthy `ramp_time` write, a truthy
on-time write (from the kwarg, else take-and-clear from the mixin), and
finally the LEVEL write `brightness / 255`, with a falsy requested
brightness (0, or an unset/zero current level when the kwarg is absent)
replaced by `int(_MAX_BRIGHTNESS) = 255`. -/
def CeDimmer.turn_on (d : CeDimmer) (k : LightOnArgs) : CeDimmer × List LightWrite :=
  if ¬ (d.is_state_change (some true) none k = true) then (d, [])
  else
    let ramp_writes : List LightWrite :=
      if py_q_truthy k.ramp_time then [LightWrite.RAMP_TIME_VALUE (k.ramp_time.getD 0)]
      else []
    let ot : Option ℚ × CeDimmer :=
      if py_q_truthy k.on_time then (k.on_time, d) else d.get_on_time_and_cleanup
    let on_time_writes : List LightWrite :=
      if py_q_truthy ot.1 then [LightWrite.ON_TIME_VALUE (ot.1.getD 0)] else []
    let brightness0 : ℤ := k.brightness.getD d.brightness
    let brightness : ℤ := if brightness0 = 0 then 255 else brightness0
    (ot.2, ramp_writes ++ on_time_writes ++ [LightWrite.LEVEL ((brightness : ℚ) / 255)])

example :
    CeDimmer.turn_on ⟨some 0, none⟩ {} = (⟨some 0, none⟩, [LightWrite.LEVEL 1]) := by
  norm_num [CeDimmer.turn_on, CeDimmer.is_state_change, CeDimmer.is_on, kwargs_len,
    CeDimmer.get_on_time_and_cleanup, py_q_truthy, CeDimmer.brightness, py_q_or, py_int]

/-- C5: on a dimmer whose current brightness is already X ≠ 0, a repeat
`turn_on(brightness=X)` is a no-op: `is_state_change(on=True, brightness=X)`
is false (the on-branch is skipped since two kwargs are present and the
brightness matches the current value), so `turn_on` returns before issuing
any write. -/
theorem C5_dimmer_dedup (d : CeDimmer) (X : ℤ)
    (hb : d.brightness = X) (hX : X ≠ 0) :
    d.is_state_change (some true) none { brightness := some X } = false ∧
    d.turn_on { brightness := some X } = (d, []) := by
  have h1 : d.is_state_change (some true) none { brightness := some X } = false := by
    simp [CeDimmer.is_state_change, kwargs_len, hb]
  exact ⟨h1, by simp [CeDimmer.turn_on, h1]⟩

/-- C5 witness: a dimmer at level 0.4 (brightness `int(0.4*255) = 102`):
the repeat `turn_on(brightness=102)` changes nothing and issues no
write. -/
theorem C5_dimmer_dedup_witness :
    (CeDimmer.brightness ⟨some (2 / 5), none⟩ = 102 ∧ (102 : ℤ) ≠ 0) ∧
    (CeDimmer.is_state_change ⟨some (2 / 5), none⟩ (some true) none
        { brightness := some 102 } = false ∧
     CeDimmer.turn_on ⟨some (2 / 5), none⟩ { brightness := some 102 } =
       (⟨some (2 / 5), none⟩, [])) :=
  ⟨⟨by norm_num [CeDimmer.brightness, py_q_or, py_int], by norm_num⟩,
   C5_dimmer_dedup ⟨some (2 / 5), none⟩ 102
     (by norm_num [CeDimmer.brightness, py_q_or, py_int]) (by norm_num)⟩

/-- The write list produced by a `turn_on` that passes the state-change
guard, in source order: optional RAMP_TIME_VALUE, optional ON_TIME_VALUE,
then always the LEVEL write with the falsy-brightness fallback to 255. -/
lemma turn_on_writes (d : CeDimmer) (k : LightOnArgs)
    (hguard : d.is_state_change (some true) none k = true) :
    (d.turn_on k).2 =
      (if py_q_truthy k.ramp_time then [LightWrite.RAMP_TIME_VALUE (k.ramp_time.getD 0)]
       else []) ++
      (if py_q_truthy (if py_q_truthy k.on_time then k.on_time else d.on_time) then
        [LightWrite.ON_TIME_VALUE
          ((if py_q_truthy k.on_time then k.on_time else d.on_time).getD 0)]
       else []) ++
      [LightWrite.LEVEL
        (((if k.brightness.getD d.brightness = 0 then (255 : ℤ)
           else k.brightness.getD d.brightness) : ℚ) / 255)] := by
  unfold CeDimmer.turn_on
  rw [if_neg (by rw [hguard]; simp)]
  dsimp only [CeDimmer.get_on_time_and_cleanup]
  split_ifs <;> rfl

/-- C10: if `turn_on` passes the state-change guard with a falsy effective
brightness — `brightness=0` passed explicitly, or brightness omitted with
the current brightness 0 (level unset or zero) — the LEVEL write is 1.0
(full brightness), never 0.0; and no `turn_on` call on any dimmer can ever
write LEVEL 0. -/
theorem C10_turn_on_falsy_brightness (d : CeDimmer) (k : LightOnArgs)
    (hguard : d.is_state_change (some true) none k = true)
    (hfalsy : k.brightness = some 0 ∨ (k.brightness = none ∧ d.brightness = 0)) :
    (LightWrite.LEVEL 1 ∈ (d.turn_on k).2 ∧
     ∀ v : ℚ, LightWrite.LEVEL v ∈ (d.turn_on k).2 → v = 1) ∧
    (∀ (d2 : CeDimmer) (k2 : LightOnArgs) (v : ℚ),
      LightWrite.LEVEL v ∈ (d2.turn_on k2).2 → v ≠ 0) := by
  have hb0 : k.brightness.getD d.brightness = 0 := by
    rcases hfalsy with h | ⟨h1, h2⟩
    · rw [h]; rfl
    · rw [h1]; exact h2
  have hlevel : (((if k.brightness.getD d.brightness = 0 then (255 : ℤ)
      else k.brightness.getD d.brightness) : ℚ) / 255) = 1 := by
    rw [if_pos hb0]
    norm_num
  constructor
  · constructor
    · rw [turn_on_writes d k hguard, hlevel]
      exact List.mem_append_right _ (by simp)
    · intro v hv
      rw [turn_on_writes d k hguard, hlevel] at hv
      rcases List.mem_append.mp hv with h | h
      · rcases List.mem_append.mp h with h2 | h2 <;>
          (split_ifs at h2 <;> simp at h2)
      · simpa using h
  · intro d2 k2 v hv
    by_cases hg : d2.is_state_change (some true) none k2 = true
    · rw [turn_on_writes d2 k2 hg] at hv
      rcases List.mem_append.mp hv with h | h
      · rcases List.mem_append.mp h with h2 | h2 <;>
          (split_ifs at h2 <;> simp at h2)
      · have hv2 : v = (((if k2.brightness.getD d2.brightness = 0 then (255 : ℤ)
            else k2.brightness.getD d2.brightness) : ℚ) / 255) := by
          simpa using h
        rw [hv2]
        apply div_ne_zero
        · split_ifs with hz
          · norm_num
          · exact Int.cast_ne_zero.mpr hz
        · norm_num
    · have : d2.turn_on k2 = (d2, []) := by
        unfold CeDimmer.turn_on
        rw [if_pos hg]
      rw [this] at hv
      simp at hv

/-- C10 witness: a dimmer with the LEVEL value unset, turned on with no
arguments: the guard passes (off-state `on` request) and the single issued
write is LEVEL 1. -/
theorem C10_turn_on_falsy_brightness_witness :
    (CeDimmer.is_state_change ⟨none, none⟩ (some true) none {} = true ∧
     (LightOnArgs.brightness {} = some 0 ∨
       (LightOnArgs.brightness {} = none ∧ CeDimmer.brightness ⟨none, none⟩ = 0))) ∧
    ((LightWrite.LEVEL 1 ∈ (CeDimmer.turn_on ⟨none, none⟩ {}).2 ∧
      ∀ v : ℚ, LightWrite.LEVEL v ∈ (CeDimmer.turn_on ⟨none, none⟩ {}).2 → v = 1) ∧
     (∀ (d2 : CeDimmer) (k2 : LightOnArgs) (v : ℚ),
       LightWrite.LEVEL v ∈ (d2.turn_on k2).2 → v ≠ 0)) :=
  ⟨⟨by decide, Or.inr ⟨rfl, by norm_num [CeDimmer.brightness, py_q_or, py_int]⟩⟩,
   C10_turn_on_falsy_brightness ⟨none, none⟩ {} (by decide)
     (Or.inr ⟨rfl, by norm_num [CeDimmer.brightness, py_q_or, py_int]⟩)⟩

/-- C6: the timer unit-rescaling maps the 111600 "not used" sentinel
through unchanged with no unit (so `_set_on_time_value` emits no unit
write); any other value above 16343 is divided by 60 with unit MINUTES,
and divided by 60 again with unit HOURS if the quotient still exceeds
16343; otherwise the value is returned unchanged with unit SECONDS.  In
particular 16344 rescales to 272.4 (= 1362/5) minutes and 0 stays 0
seconds. -/
theorem C6_recalc_unit_timer :
    (_recalc_unit_timer 111600 = (111600, none) ∧
     CeIpRGBWLight.set_on_time_value 111600 = [LightWrite.ON_TIME_VALUE 111600]) ∧
    (∀ t : ℚ, t ≠ 111600 → t > 16343 →
      (t / 60 > 16343 → _recalc_unit_timer t = (t / 60 / 60, some TimeUnit.HOURS)) ∧
      (t / 60 ≤ 16343 → _recalc_unit_timer t = (t / 60, some TimeUnit.MINUTES))) ∧
    (∀ t : ℚ, t ≠ 111600 → t ≤ 16343 →
      _recalc_unit_timer t = (t, some TimeUnit.SECONDS)) ∧
    _recalc_unit_timer 16344 = (1362 / 5, some TimeUnit.MINUTES) ∧
    _recalc_unit_timer 0 = (0, some TimeUnit.SECONDS) := by
  refine ⟨⟨?_, ?_⟩, ?_, ?_, ?_, ?_⟩
  · norm_num [_recalc_unit_timer]
  · norm_num [CeIpRGBWLight.set_on_time_value, _recalc_unit_timer, optTimeUnit_py_truthy]
  · intro t ht h1
    constructor
    · intro h2
      unfold _recalc_unit_timer
      rw [if_neg ht, if_pos h1]
      dsimp only
      rw [if_pos h2]
    · intro h2
      unfold _recalc_unit_timer
      rw [if_neg ht, if_pos h1]
      dsimp only
      rw [if_neg (not_lt.mpr h2)]
  · intro t ht h1
    unfold _recalc_unit_timer
    rw [if_neg ht, if_neg (not_lt.mpr h1)]
    dsimp only
    rw [if_neg (not_lt.mpr h1)]
  · norm_num [_recalc_unit_timer]
  · norm_num [_recalc_unit_timer]

/-- C6 witness: 20000 seconds (not the sentinel, above 16343, quotient
1000/3 within range) rescales to 1000/3 minutes. -/
theorem C6_recalc_unit_timer_witness :
    ((20000 : ℚ) ≠ 111600 ∧ (20000 : ℚ) > 16343 ∧ (20000 : ℚ) / 60 ≤ 16343) ∧
    _recalc_unit_timer 20000 = (1000 / 3, some TimeUnit.MINUTES) := by
  refine ⟨⟨by norm_num, by norm_num, by norm_num⟩, ?_⟩
  have h := ((C6_recalc_unit_timer.2.1 20000 (by norm_num) (by norm_num)).2 (by norm_num))
  rw [h]
  norm_num

/-- C7: the fixed-color conversion returns WHITE whenever the saturation
truncated to an integer is below 5, regardless of hue; otherwise the
truncated hue is bucketed into the 60°-wide bands (30,90] YELLOW,
(90,150] GREEN, (150,210] TURQUOISE, (210,270] BLUE, (270,330] PURPLE, and
everything else — hue ≤ 30 (including 29) and the wraparound band
hue > 330 — is RED.  In particular hue 91 gives GREEN, hue 29 gives RED,
and saturation 4 gives WHITE at any hue. -/
theorem C7_convert_color (h s : ℚ) :
    (py_int s < 5 → _convert_color (h, s) = FixedColor.WHITE) ∧
    (5 ≤ py_int s →
      ((30 < py_int h ∧ py_int h ≤ 90) → _convert_color (h, s) = FixedColor.YELLOW) ∧
      ((90 < py_int h ∧ py_int h ≤ 150) → _convert_color (h, s) = FixedColor.GREEN) ∧
      ((150 < py_int h ∧ py_int h ≤ 210) → _convert_color (h, s) = FixedColor.TURQUOISE) ∧
      ((210 < py_int h ∧ py_int h ≤ 270) → _convert_color (h, s) = FixedColor.BLUE) ∧
      ((270 < py_int h ∧ py_int h ≤ 330) → _convert_color (h, s) = FixedColor.PURPLE) ∧
      ((py_int h ≤ 30 ∨ 330 < py_int h) → _convert_color (h, s) = FixedColor.RED)) ∧
    (_convert_color (91, 100) = FixedColor.GREEN ∧
     _convert_color (29, 100) = FixedColor.RED ∧
     _convert_color (h, 4) = FixedColor.WHITE) := by
  refine ⟨?_, ?_, by decide, by decide, ?_⟩
  · intro hs
    unfold _convert_color
    dsimp only
    rw [if_pos hs]
  · intro h5
    have hns : ¬ py_int s < 5 := not_lt.mpr h5
    have hband : ∀ hq : ℚ, ∀ c : FixedColor, hq = h →
        ((30 < py_int h ∧ py_int h ≤ 90 ∧ c = FixedColor.YELLOW) ∨
         (90 < py_int h ∧ py_int h ≤ 150 ∧ c = FixedColor.GREEN) ∨
         (150 < py_int h ∧ py_int h ≤ 210 ∧ c = FixedColor.TURQUOISE) ∨
         (210 < py_int h ∧ py_int h ≤ 270 ∧ c = FixedColor.BLUE) ∨
         (270 < py_int h ∧ py_int h ≤ 330 ∧ c = FixedColor.PURPLE) ∨
         ((py_int h ≤ 30 ∨ 330 < py_int h) ∧ c = FixedColor.RED)) →
        _convert_color (h, s) = c := by
      rintro hq c rfl hc
      unfold _convert_color
      dsimp only
      rcases hc with ⟨h1, h2, rfl⟩ | ⟨h1, h2, rfl⟩ | ⟨h1, h2, rfl⟩ | ⟨h1, h2, rfl⟩ |
        ⟨h1, h2, rfl⟩ | ⟨h1, rfl⟩ <;>
          [skip; skip; skip; skip; skip;
            rcases h1 with h1 | h1] <;>
        (split_ifs <;> first | rfl | omega)
    refine ⟨?_, ?_, ?_, ?_, ?_, ?_⟩
    · rintro ⟨h1, h2⟩
      exact hband h FixedColor.YELLOW rfl (Or.inl ⟨h1, h2, rfl⟩)
    · rintro ⟨h1, h2⟩
      exact hband h FixedColor.GREEN rfl (Or.inr (Or.inl ⟨h1, h2, rfl⟩))
    · rintro ⟨h1, h2⟩
      exact hband h FixedColor.TURQUOISE rfl (Or.inr (Or.inr (Or.inl ⟨h1, h2, rfl⟩)))
    · rintro ⟨h1, h2⟩
      exact hband h FixedColor.BLUE rfl (Or.inr (Or.inr (Or.inr (Or.inl ⟨h1, h2, rfl⟩))))
    · rintro ⟨h1, h2⟩
      exact hband h FixedColor.PURPLE rfl
        (Or.inr (Or.inr (Or.inr (Or.inr (Or.inl ⟨h1, h2, rfl⟩)))))
    · intro h1
      exact hband h FixedColor.RED rfl
        (Or.inr (Or.inr (Or.inr (Or.inr (Or.inr ⟨h1, rfl⟩)))))
  · unfold _convert_color
    dsimp only
    rw [if_pos]
    norm_num [py_int]

/-- C7 witness: hue 200, saturation 50 sits in the (150,210] band and maps
to TURQUOISE. -/
theorem C7_convert_color_witness :
    (5 ≤ py_int (50 : ℚ) ∧ 150 < py_int (200 : ℚ) ∧ py_int (200 : ℚ) ≤ 210) ∧
    _convert_color (200, 50) = FixedColor.TURQUOISE :=
  ⟨⟨by decide, by decide, by decide⟩,
   (((C7_convert_color 200 50).2.1 (by decide)).2.2.1 ⟨by decide, by decide⟩)⟩
